import Mathlib

/-!
Linux frame-buffer video driver (`gfx/drivers/fbdev_gfx.c`).

A shallow embedding of the mode negotiation (`fbdev_init`), the page pool
(`fbdev_get_free_page`), the page flip (`fbdev_page_flip`) and the per-frame
entry points of the driver, followed by the properties established for them.

Conventions of the embedding:

* `unsigned` values are natural numbers; every C expression that can wrap is
  reduced modulo `2 ^ 32` explicitly.
* A pointer into `fbdev->pages` is the index of the page (`Fin FBDEV_MAX_PAGES`),
  `NULL` is `none`.  `fbdev_page_t.buf` is kept as the byte position of the page
  relative to `fbdev->fbmem`.
* The frame-buffer device is an explicit argument: it answers the n-th
  `FBIOPUT_VSCREENINFO` request either with a rejection (`none`) or with the
  geometry it wrote back (`some v`).  A rejected request leaves the caller's
  `vinfo` as the caller filled it in.
* A call that does not return is reported as `trap`: an integer division by
  zero, or a load through `fbdev->dummy_page` while that pointer is `NULL`.
* The build configuration is the one in the source: `FBDEV_KEEP_FBDEV_PARAMS`
  and `FBDEV_SCALE_WITH_ASPECT` defined, `FBDEV_MAX_YRES_VIRTUAL` and
  `FBDEV_PREFER_BIG_PAGE` not defined, `HAVE_MENU` defined.
-/

namespace Fbdev

/-! ## Data model (`gfx/common/fbdev_common.h`) -/

/-- Size of the page array: `#define FBDEV_MAX_PAGES 3`. -/
abbrev FBDEV_MAX_PAGES : Nat := 3

/-- Modulus of the C type `unsigned`. -/
abbrev UINT_MOD : Nat := 2 ^ 32

/-- The fields of `struct fb_var_screeninfo` that the driver reads or
computes with.  The remaining fields (colour bit-fields, timings, `activate`,
`accel_flags`) are only copied around. -/
structure fb_var_screeninfo where
  xres : Nat
  yres : Nat
  xres_virtual : Nat
  yres_virtual : Nat
  xoffset : Nat
  yoffset : Nat
  bits_per_pixel : Nat
deriving DecidableEq

/-- One page, `fbdev_page_t`: `buf` is the byte position of the page inside the
mapped surface, `offset` its sub-offset, `used` the ownership flag. -/
structure fbdev_page_t where
  buf : Nat
  offset : Nat
  used : Bool
deriving DecidableEq

/-- A pointer to an element of `fbdev->pages`, or `NULL`. -/
abbrev page_ptr : Type := Option (Fin FBDEV_MAX_PAGES)

/-- The driver state, `fbdev_video_t`.  `dummy_page` records whether the heap
scratch page is allocated. -/
structure fbdev_video_t where
  vinfo : fb_var_screeninfo
  fbmem_size : Nat
  pages : Fin FBDEV_MAX_PAGES → fbdev_page_t
  num_pages : Nat
  curr_page : page_ptr
  pending_page : page_ptr
  menu_page : page_ptr
  dummy_page : Bool
  width : Nat
  height : Nat
  bpp : Nat
  video_width : Nat
  video_height : Nat
  video_bpp : Nat
  page_size : Nat
  sync : Bool
  menu_active : Bool

/-- The device as the driver sees it during one call.
`get_vscreeninfo` is the answer to `FBIOGET_VSCREENINFO` (`none`: the ioctl
failed).  `put_vscreeninfo n req` is the answer to the mode-set request `req`
when `n` requests have been issued before it: `none` is a rejection, `some v`
an acceptance that writes `v` back.  `calloc_ok` tells whether the allocation
of the dummy page succeeds. -/
structure fbdev_device where
  get_vscreeninfo : Option fb_var_screeninfo
  put_vscreeninfo : Nat → fb_var_screeninfo → Option fb_var_screeninfo
  calloc_ok : Bool

/-- Device requests that the driver issues outside mode negotiation. -/
inductive fb_ioctl where
  | FBIO_WAITFORVSYNC
  | FBIOPAN_DISPLAY (xoffset yoffset : Nat)
deriving DecidableEq

/-! ## Mode negotiation (`fbdev_init`) -/

/-- The `for (i = FBDEV_MAX_PAGES; i > 0; i--)` loop of `fbdev_init`
(lines 143-147), entered with counter `i` and the current `page_height`.
Returns the final `(i, page_height)`. -/
def page_height_loop (yres_virtual height : Nat) : Nat → Nat → Nat × Nat
  | 0, page_height => (0, page_height)
  | i + 1, _ =>
    let page_height := yres_virtual / (i + 1)
    if page_height ≥ height then (i + 1, page_height)
    else page_height_loop yres_virtual height i page_height

/-- The `while (fbdev->num_pages > 0)` loop of `fbdev_init` (lines 153-174),
entered with `num_pages`, the local `vinfo` and the list `reqs` of mode-set
requests issued so far.  Returns the final `num_pages`, `vinfo` and requests. -/
def mode_set_loop (dev : fbdev_device) (height page_height : Nat) :
    Nat → fb_var_screeninfo → List fb_var_screeninfo →
      Nat × fb_var_screeninfo × List fb_var_screeninfo
  | 0, vinfo, reqs => (0, vinfo, reqs)
  | n + 1, vinfo, reqs =>
    if n + 1 = 1 ∧ page_height > height then
      -- Prefer dual buffers with smaller size than a single big buffer
      (0, vinfo, reqs)
    else
      let req := { vinfo with yres_virtual := (n + 1) * page_height % UINT_MOD }
      match dev.put_vscreeninfo reqs.length req with
      | some v => (n + 1, v, reqs ++ [req])
      | none => mode_set_loop dev height page_height n req (reqs ++ [req])

/-- The two jump targets of the retry ladder. -/
inductive ladder_label where
  | retry_auto
  | retry_fixed
deriving DecidableEq

/-- The variables that live across the jumps of the retry ladder:
the local `vinfo`, `fbdev->bpp`, the local `page_height`, `fbdev->num_pages`
and the mode-set requests issued so far. -/
structure ladder_state where
  vinfo : fb_var_screeninfo
  bpp : Nat
  page_height : Nat
  num_pages : Nat
  reqs : List fb_var_screeninfo
deriving DecidableEq

/-- How the retry ladder ends. -/
inductive ladder_result where
  | accepted (s : ladder_state)
  | failed (s : ladder_state)
  | trap
  | out_of_fuel
deriving DecidableEq

/-- Lines 135-199 of `fbdev_init`: the retry ladder.  `width`, `height` and
`bpp` are the locals of that name; one unit of fuel is spent per pass through
`retry_fixed`. -/
def fbdev_init_ladder (dev : fbdev_device) (fbmem_size width height bpp : Nat) :
    Nat → ladder_label → ladder_state → ladder_result
  | 0, _, _ => ladder_result.out_of_fuel
  | fuel + 1, label, s =>
    -- retry_auto:
    let entry : Option ladder_state :=
      match label with
      | ladder_label.retry_auto =>
        if width = 0 ∨ s.bpp = 0 then none
        else
          let yres_virtual := fbmem_size / width / s.bpp
          some { s with
            vinfo := { s.vinfo with yres_virtual := yres_virtual }
            page_height := (page_height_loop yres_virtual height FBDEV_MAX_PAGES s.page_height).2 }
      | ladder_label.retry_fixed => some s
    match entry with
    | none => ladder_result.trap
    | some s =>
      -- retry_fixed:
      let vinfo := { s.vinfo with bits_per_pixel := s.bpp * 8 % UINT_MOD }
      let r := mode_set_loop dev height s.page_height FBDEV_MAX_PAGES vinfo s.reqs
      let s := { s with vinfo := r.2.1, num_pages := r.1, reqs := r.2.2 }
      if s.num_pages = 0 then
        if s.bpp = bpp then
          let s := { s with bpp := if bpp = 4 then 2 else 4 }
          if s.page_height = height then
            fbdev_init_ladder dev fbmem_size width height bpp fuel ladder_label.retry_fixed s
          else
            fbdev_init_ladder dev fbmem_size width height bpp fuel ladder_label.retry_auto s
        else if s.page_height = height then
          ladder_result.failed s
        else
          let s := { s with bpp := bpp, page_height := height, num_pages := FBDEV_MAX_PAGES }
          fbdev_init_ladder dev fbmem_size width height bpp fuel ladder_label.retry_fixed s
      else
        ladder_result.accepted s

/-- Passes through `retry_fixed` granted to the ladder by `fbdev_init`;
four passes are the most the ladder can make. -/
abbrev LADDER_ROUNDS : Nat := 4

/-- How a call of `fbdev_init` ends. -/
inductive init_result where
  | ret (code : Int) (fbdev : fbdev_video_t)
  | trap
  | out_of_fuel

/-- Lines 201-249 of `fbdev_init`: what happens once a mode-set request has
been accepted, with `vinfo` as the device wrote it back. -/
def fbdev_init_finish (dev : fbdev_device) (fbdev : fbdev_video_t)
    (vinfo : fb_var_screeninfo) (page_height : Nat) : init_result :=
  let fbdev := { fbdev with
    vinfo := vinfo
    width := vinfo.xres
    height := vinfo.yres
    bpp := (vinfo.bits_per_pixel + 7) % UINT_MOD / 8 }
  if fbdev.bpp ≠ 2 ∧ fbdev.bpp ≠ 4 then
    init_result.ret (-1) fbdev
  else if page_height = 0 then
    init_result.trap
  else
    let fbdev := { fbdev with num_pages := vinfo.yres_virtual / page_height }
    if fbdev.num_pages = 0 then
      init_result.ret (-1) fbdev
    else
      let fbdev := { fbdev with
        num_pages :=
          if fbdev.num_pages > FBDEV_MAX_PAGES then FBDEV_MAX_PAGES else fbdev.num_pages }
      let fbdev := { fbdev with page_size := fbdev.width * fbdev.bpp * page_height % UINT_MOD }
      let fbdev := { fbdev with
        pages := fun i =>
          if i.val < fbdev.num_pages then
            { buf := i.val * fbdev.page_size % UINT_MOD, offset := 0, used := false }
          else fbdev.pages i }
      if dev.calloc_ok then
        init_result.ret 0 { fbdev with
          dummy_page := true
          curr_page := none
          pending_page := none
          menu_page := none }
      else
        init_result.ret (-1) { fbdev with dummy_page := false }

/-- Lines 116-133 of `fbdev_init`: the variables of the ladder on entry.
With `FBDEV_KEEP_FBDEV_PARAMS` the locals `width`, `height` and `bpp` are the
device's current `xres`, `yres` and `(bits_per_pixel + 7) / 8`; `page_height`
is not initialised yet (the first loop assigns it). -/
def fbdev_init_entry (fbdev : fbdev_video_t) (vinfo : fb_var_screeninfo) : ladder_state :=
  let width := vinfo.xres
  let height := vinfo.yres
  let bpp := (vinfo.bits_per_pixel + 7) % UINT_MOD / 8
  { vinfo := { vinfo with
      xres := width
      yres := height
      xres_virtual := width
      xoffset := 0
      yoffset := 0 }
    bpp := bpp
    page_height := 0
    num_pages := fbdev.num_pages
    reqs := [] }

/-- The whole of `fbdev_init`. -/
def fbdev_init (dev : fbdev_device) (fbdev : fbdev_video_t) : init_result :=
  match dev.get_vscreeninfo with
  | none => init_result.ret (-1) fbdev
  | some vinfo =>
    let width := vinfo.xres
    let height := vinfo.yres
    let bpp := (vinfo.bits_per_pixel + 7) % UINT_MOD / 8
    match fbdev_init_ladder dev fbdev.fbmem_size width height bpp LADDER_ROUNDS
        ladder_label.retry_auto (fbdev_init_entry fbdev vinfo) with
    | ladder_result.trap => init_result.trap
    | ladder_result.out_of_fuel => init_result.out_of_fuel
    | ladder_result.failed s =>
      init_result.ret (-1) { fbdev with bpp := s.bpp, num_pages := s.num_pages }
    | ladder_result.accepted s =>
      fbdev_init_finish dev { fbdev with bpp := s.bpp, num_pages := s.num_pages }
        s.vinfo s.page_height

/-- `fbdev_deinit`: releases the dummy page. -/
def fbdev_deinit (fbdev : fbdev_video_t) : fbdev_video_t :=
  if fbdev.dummy_page then { fbdev with dummy_page := false } else fbdev

/-! ## Page pool (`fbdev_get_free_page`, `fbdev_get_page`) -/

/-- The `for (i = 0; i < fbdev->num_pages; i++)` loop of `fbdev_get_free_page`
(lines 366-371): `n` iterations remain and the counter is `i`.  Returns the
value of `page` after the loop. -/
def free_page_loop (pages : Fin FBDEV_MAX_PAGES → fbdev_page_t) : Nat → Nat → page_ptr
  | 0, _ => none
  | n + 1, i =>
    if h : i < FBDEV_MAX_PAGES then
      if !(pages ⟨i, h⟩).used then some ⟨i, h⟩
      else free_page_loop pages n (i + 1)
    else none

/-- `fbdev_get_free_page`: the state after the call and the page returned. -/
def fbdev_get_free_page (fbdev : fbdev_video_t) : fbdev_video_t × Fin FBDEV_MAX_PAGES :=
  let page : Fin FBDEV_MAX_PAGES :=
    match free_page_loop fbdev.pages fbdev.num_pages 0 with
    | some p => p
    | none => 0
  ({ fbdev with
      pages := Function.update fbdev.pages page
        { fbdev.pages page with used := true, offset := 0 } },
    page)

/-- `fbdev_get_page`, as far as the pool is concerned: it takes a page from
`fbdev_get_free_page` and draws into it; only pixels of that page change. -/
def fbdev_get_page (fbdev : fbdev_video_t) : fbdev_video_t × page_ptr :=
  let r := fbdev_get_free_page fbdev
  let page : page_ptr := some r.2
  match page with
  | none => (r.1, none)
  | some p => (r.1, some p)

/-! ## Page flip (`fbdev_page_flip`) -/

/-- How a call of `fbdev_page_flip` ends: the new state and the device
requests it issued, or a division by zero. -/
inductive flip_result where
  | done (fbdev : fbdev_video_t) (log : List fb_ioctl)
  | trap

/-- `fbdev_wait_vsync`, as the requests of `fbdev_page_flip` before the pan. -/
def fbdev_wait_vsync : List fb_ioctl := [fb_ioctl.FBIO_WAITFORVSYNC]

/-- `fbdev_page_flip` (lines 468-502). -/
def fbdev_page_flip (fbdev : fbdev_video_t) : flip_result :=
  let log : List fb_ioctl := if fbdev.sync then fbdev_wait_vsync else []
  match fbdev.pending_page with
  | none => flip_result.done fbdev log
  | some pending =>
    let pitch := fbdev.width * fbdev.bpp % UINT_MOD
    let offset := ((fbdev.pages pending).buf + (fbdev.pages pending).offset) % UINT_MOD
    if pitch = 0 then flip_result.trap
    else
      let fbdev := { fbdev with
        vinfo := { fbdev.vinfo with yoffset := offset / pitch, xoffset := offset &&& pitch } }
      let log := log ++ [fb_ioctl.FBIOPAN_DISPLAY fbdev.vinfo.xoffset fbdev.vinfo.yoffset]
      let fbdev :=
        match fbdev.curr_page with
        | some curr =>
          { fbdev with
            pages := Function.update fbdev.pages curr { fbdev.pages curr with used := false }
            curr_page := none }
        | none => fbdev
      let fbdev := { fbdev with curr_page := some pending }
      let fbdev := { fbdev with
        pages := Function.update fbdev.pages pending { fbdev.pages pending with used := true } }
      flip_result.done { fbdev with pending_page := none } log

/-! ## Frame entry points -/

/-- How a call of `fbdev_gfx_frame` ends: with a return value, or without one
(`trap`) after a division by zero or a load through a `NULL` dummy page. -/
inductive frame_result where
  | ret (value : Bool) (fbdev : fbdev_video_t) (log : List fb_ioctl)
  | trap
  | out_of_fuel

/-- Lines 547-653 of `fbdev_gfx_frame`: everything after the resolution
check.  With the menu active the background fill starts by loading
`fbdev->dummy_page->buf` (line 555 for 2 bytes per pixel, line 561 otherwise),
whatever `menu_page` is; with `dummy_page` equal to `NULL` that load ends the
call.  The fill itself, `menu_driver_frame`, the `memcpy` of line 581 and text
rendering only write pixels. -/
def fbdev_gfx_frame_draw (fbdev : fbdev_video_t) (log : List fb_ioctl) : frame_result :=
  -- HAVE_MENU
  if fbdev.menu_active && !fbdev.dummy_page then
    frame_result.trap
  else
    let fbdev :=
      if fbdev.menu_active then
        match fbdev.menu_page with
        | some m => { fbdev with pending_page := some m }
        | none =>
          let r := fbdev_get_free_page fbdev
          { r.1 with pending_page := some r.2 }
      else fbdev
    let flip (fbdev : fbdev_video_t) : frame_result :=
      match fbdev_page_flip fbdev with
      | flip_result.done fbdev l => frame_result.ret true fbdev (log ++ l)
      | flip_result.trap => frame_result.trap
    match fbdev.pending_page with
    | some _ => flip fbdev
    | none =>
      let r := fbdev_get_page fbdev
      let fbdev := { r.1 with pending_page := r.2 }
      match fbdev.pending_page with
      | none => frame_result.ret true fbdev log
      | some _ => flip fbdev

/-- Lines 535-539 of `fbdev_gfx_frame`: the state handed to `fbdev_init` when
the core changed the resolution. -/
def fbdev_gfx_frame_resize (fbdev : fbdev_video_t) (width height : Nat) : fbdev_video_t :=
  let fbdev := fbdev_deinit fbdev
  { fbdev with video_width := width, video_height := height }

/-- `fbdev_gfx_frame` (lines 504-653).  `frame` tells whether the frame pointer
is non-null; `dev` is the device as it answers during this call. -/
def fbdev_gfx_frame (dev : fbdev_device) (fbdev : fbdev_video_t) (frame : Bool)
    (width height : Nat) : frame_result :=
  if !fbdev.menu_active && !frame then
    frame_result.ret true fbdev []
  else if width ≠ fbdev.video_width ∨ height ≠ fbdev.video_height then
    let log := fbdev_wait_vsync
    match fbdev_init dev (fbdev_gfx_frame_resize fbdev width height) with
    | init_result.trap => frame_result.trap
    | init_result.out_of_fuel => frame_result.out_of_fuel
    | init_result.ret code fbdev =>
      if code < 0 then frame_result.ret false fbdev log
      else fbdev_gfx_frame_draw fbdev log
  else
    fbdev_gfx_frame_draw fbdev []

/-- `fbdev_gfx_set_texture_frame` (lines 715-739). -/
def fbdev_gfx_set_texture_frame (fbdev : fbdev_video_t) : fbdev_video_t :=
  let fbdev :=
    match fbdev.menu_page with
    | some m =>
      { fbdev with
        pages := Function.update fbdev.pages m { fbdev.pages m with used := false }
        menu_page := none }
    | none => fbdev
  let r := fbdev_get_page fbdev
  { r.1 with menu_page := r.2 }

/-- `fbdev_gfx_set_texture_enable` (lines 741-759). -/
def fbdev_gfx_set_texture_enable (fbdev : fbdev_video_t) (state : Bool) : fbdev_video_t :=
  let fbdev := { fbdev with menu_active := state }
  match fbdev.menu_page with
  | some m =>
    if !state then
      { fbdev with
        pages := Function.update fbdev.pages m { fbdev.pages m with used := false }
        menu_page := none }
    else fbdev
  | none => fbdev

/-! ## Auxiliary predicates and sample inputs -/

/-- The ladder ended (accepted or failed) having issued at most `k` more
requests than the `n` issued before. -/
def ladder_settled (r : ladder_result) (n k : Nat) : Prop :=
  ∃ s, (r = ladder_result.accepted s ∨ r = ladder_result.failed s) ∧
    n ≤ s.reqs.length ∧ s.reqs.length ≤ n + k

/-- The state carried by an `init_result`, `d` when there is none. -/
def init_result.state (r : init_result) (d : fbdev_video_t) : fbdev_video_t :=
  match r with
  | init_result.ret _ st => st
  | init_result.trap => d
  | init_result.out_of_fuel => d

/-- A device geometry `xres` x `yres` at `bits` bits per pixel, not panned. -/
def sample_vinfo (xres yres bits : Nat) : fb_var_screeninfo :=
  { xres := xres, yres := yres, xres_virtual := xres, yres_virtual := yres,
    xoffset := 0, yoffset := 0, bits_per_pixel := bits }

/-- The driver state as `fbdev_gfx_init` leaves it before `fbdev_init`:
zero-filled by `calloc`, then `video_bpp`, the video size and `fbmem_size` set. -/
def sample_fbdev (fbmem_size video_width video_height video_bpp : Nat) : fbdev_video_t :=
  { vinfo := sample_vinfo 0 0 0
    fbmem_size := fbmem_size
    pages := fun _ => { buf := 0, offset := 0, used := false }
    num_pages := 0
    curr_page := none
    pending_page := none
    menu_page := none
    dummy_page := false
    width := 0
    height := 0
    bpp := 0
    video_width := video_width
    video_height := video_height
    video_bpp := video_bpp
    page_size := 0
    sync := false
    menu_active := false }

/-- A device currently in mode `v` that accepts every mode-set request as asked. -/
def dev_accept_all (v : fb_var_screeninfo) : fbdev_device :=
  { get_vscreeninfo := some v
    put_vscreeninfo := fun _ req => some req
    calloc_ok := true }

/-- A device currently in mode `v` that rejects every mode-set request. -/
def dev_reject_all (v : fb_var_screeninfo) : fbdev_device :=
  { get_vscreeninfo := some v
    put_vscreeninfo := fun _ _ => none
    calloc_ok := true }

/-- Bytes per pixel of a geometry, the source's `(vinfo.bits_per_pixel + 7) / 8`. -/
def vinfo_bpp (vinfo : fb_var_screeninfo) : Nat :=
  (vinfo.bits_per_pixel + 7) % UINT_MOD / 8

/-- The page count `i` and the `page_height` with which `fbdev_init` leaves its
first loop on the first pass: lines 136-147 for the device geometry `vinfo`. -/
def auto_page_layout (fbmem_size : Nat) (vinfo : fb_var_screeninfo) : Nat × Nat :=
  page_height_loop (fbmem_size / vinfo.xres / vinfo_bpp vinfo) vinfo.yres FBDEV_MAX_PAGES 0

/-- A device currently in mode `v` that accepts every mode-set request and
writes it back with `bits` bits per pixel. -/
def dev_accept_depth (v : fb_var_screeninfo) (bits : Nat) : fbdev_device :=
  { get_vscreeninfo := some v
    put_vscreeninfo := fun _ req => some { req with bits_per_pixel := bits }
    calloc_ok := true }

/-- A device currently in mode `v` that accepts every mode-set request and
writes it back with `rows` virtual rows. -/
def dev_accept_rows (v : fb_var_screeninfo) (rows : Nat) : fbdev_device :=
  { get_vscreeninfo := some v
    put_vscreeninfo := fun _ req => some { req with yres_virtual := rows }
    calloc_ok := true }

/-- The state carried by a `flip_result`, `d` when there is none. -/
def flip_result.state (r : flip_result) (d : fbdev_video_t) : fbdev_video_t :=
  match r with
  | flip_result.done st _ => st
  | flip_result.trap => d

/-- The device requests recorded in a `flip_result`. -/
def flip_result.log (r : flip_result) : List fb_ioctl :=
  match r with
  | flip_result.done _ l => l
  | flip_result.trap => []

/-- The state carried by a `frame_result`, `d` when there is none. -/
def frame_result.state (r : frame_result) (d : fbdev_video_t) : fbdev_video_t :=
  match r with
  | frame_result.ret _ st _ => st
  | frame_result.trap => d
  | frame_result.out_of_fuel => d

/-- The driver state after a successful `fbdev_init` on the 2,073,600-byte
surface of a 640x480, 16-bit device: three unused pages of 640x540 pixels,
691200 bytes each. -/
def sample_pool : fbdev_video_t :=
  (fbdev_init (dev_accept_all (sample_vinfo 640 480 16))
    (sample_fbdev 2073600 640 480 2)).state (sample_fbdev 0 0 0 0)

/-- The driver state after a successful `fbdev_init` on a 614400-byte surface
whose device accepts only what fits: a single page of 640x480 pixels. -/
def sample_single_pool : fbdev_video_t :=
  (fbdev_init
    { get_vscreeninfo := some (sample_vinfo 640 480 16)
      put_vscreeninfo := fun _ req =>
        if req.xres_virtual * vinfo_bpp req * req.yres_virtual ≤ 614400 then some req else none
      calloc_ok := true }
    (sample_fbdev 614400 640 480 2)).state (sample_fbdev 0 0 0 0)

/-- The 3-page pool after one frame has been shown: page 0 is current. -/
def sample_shown : fbdev_video_t :=
  (fbdev_gfx_frame (dev_accept_all (sample_vinfo 640 480 16)) sample_pool true 640 480).state
    sample_pool

/-- The 3-page pool with page 0 current and the next frame drawn into page 1,
which is pending: the state in which `fbdev_gfx_frame` calls `fbdev_page_flip`. -/
def sample_drawn : fbdev_video_t :=
  { (fbdev_get_page sample_shown).1 with pending_page := (fbdev_get_page sample_shown).2 }

/-- The single-page pool with page 0 current and pending at once. -/
def sample_single_drawn : fbdev_video_t :=
  let shown :=
    (fbdev_gfx_frame (dev_accept_all (sample_vinfo 640 480 16)) sample_single_pool true
      640 480).state sample_single_pool
  { (fbdev_get_page shown).1 with pending_page := (fbdev_get_page shown).2 }

/-- The calls that `fbdev_gfx_frame` and the poke interface make on the
driver state: one constructor per entry point, with its arguments. -/
inductive driver_call where
  | gfx_frame (dev : fbdev_device) (frame : Bool) (width height : Nat)
  | page_flip
  | set_texture_frame
  | set_texture_enable (state : Bool)

/-- The state after one call, `none` when the call does not return. -/
def apply_call (fbdev : fbdev_video_t) : driver_call → Option fbdev_video_t
  | driver_call.gfx_frame dev frame width height =>
    match fbdev_gfx_frame dev fbdev frame width height with
    | frame_result.ret _ st _ => some st
    | frame_result.trap => none
    | frame_result.out_of_fuel => none
  | driver_call.page_flip =>
    match fbdev_page_flip fbdev with
    | flip_result.done st _ => some st
    | flip_result.trap => none
  | driver_call.set_texture_frame => some (fbdev_gfx_set_texture_frame fbdev)
  | driver_call.set_texture_enable state => some (fbdev_gfx_set_texture_enable fbdev state)

/-- The state after a sequence of calls, `none` when one of them does not return. -/
def apply_calls (fbdev : fbdev_video_t) : List driver_call → Option fbdev_video_t
  | [] => some fbdev
  | c :: cs =>
    match apply_call fbdev c with
    | some st => apply_calls st cs
    | none => none

/-- The pool invariant on the visible page: the current page, if any, is
marked used. -/
def curr_page_used (fbdev : fbdev_video_t) : Prop :=
  ∀ c, fbdev.curr_page = some c → (fbdev.pages c).used = true

/-- The usual menu round trip: the menu is enabled, its texture is uploaded,
a frame shows it, the menu is disabled. -/
def menu_round_trip : List driver_call :=
  [ driver_call.set_texture_enable true,
    driver_call.set_texture_frame,
    driver_call.gfx_frame (dev_accept_all (sample_vinfo 640 480 16)) true 640 480,
    driver_call.set_texture_enable false ]

/-- On a single-page pool: a frame is shown, a menu texture is uploaded, the
menu is disabled. -/
def single_page_menu_upload : List driver_call :=
  [ driver_call.gfx_frame (dev_accept_all (sample_vinfo 640 480 16)) true 640 480,
    driver_call.set_texture_frame,
    driver_call.set_texture_enable false ]

/-! ## Sample inputs for the retry ladder and the frame path -/

/-- The mode-set requests of a ladder result as `(yres_virtual, bits_per_pixel)`
pairs, in the order issued. -/
def ladder_result.requests (r : ladder_result) : List (Nat × Nat) :=
  match r with
  | ladder_result.accepted s => s.reqs.map (fun v => (v.yres_virtual, v.bits_per_pixel))
  | ladder_result.failed s => s.reqs.map (fun v => (v.yres_virtual, v.bits_per_pixel))
  | ladder_result.trap => []
  | ladder_result.out_of_fuel => []

/-- The last-resort candidates of the ladder were offered: some request in
`reqs` has the requested depth `bpp * 8` and `n * height` virtual rows for a
page count `n` between 1 and `FBDEV_MAX_PAGES`. -/
def offered_fixed_height (reqs : List (Nat × Nat)) (bpp height : Nat) : Prop :=
  ∃ req ∈ reqs, req.2 = bpp * 8 % UINT_MOD ∧
    ∃ n ∈ List.range' 1 FBDEV_MAX_PAGES, req.1 = n * height % UINT_MOD

instance (reqs : List (Nat × Nat)) (bpp height : Nat) :
    Decidable (offered_fixed_height reqs bpp height) := by
  unfold offered_fixed_height
  infer_instance

/-- A device currently in mode `v` that supports 16 bits per pixel only and at
most 1440 virtual rows. -/
def dev_sixteen_bit_1440 (v : fb_var_screeninfo) : fbdev_device :=
  { get_vscreeninfo := some v
    put_vscreeninfo := fun _ req =>
      if req.bits_per_pixel = 16 ∧ req.yres_virtual ≤ 1440 then some req else none
    calloc_ok := true }

/-- The 3-page pool after a frame of 320x240 arrived while the device rejected
every mode: the state that `fbdev_gfx_frame` leaves when it returns false. -/
def sample_failed_resize : fbdev_video_t :=
  (fbdev_gfx_frame (dev_reject_all (sample_vinfo 640 480 16)) sample_pool true 320 240).state
    sample_pool

/-- The 3-page pool with the menu enabled, after a frame of 320x240 arrived
while the device rejected every mode: the state that `fbdev_gfx_frame` leaves
when it returns false with the menu active. -/
def sample_failed_resize_menu : fbdev_video_t :=
  (fbdev_gfx_frame (dev_reject_all (sample_vinfo 640 480 16))
    (fbdev_gfx_set_texture_enable sample_pool true) true 320 240).state sample_pool

/-! ## Text rendering (`gfx/drivers_font/fbdev_font.c`)

Pixels of the page that text is drawn into are a map from the pixel index
(`row * fbdev->width + column`, counted from the start of the page) to the
stored pixel value; indices past the page stand for the memory behind it.
Byte buffers (the atlas, the temporary glyph buffer) are maps from the byte
index to the byte.  The `float` scale is an integer `scale >= 1`, for which the
products and quotients of the source are exact. -/

/-- The macro `FBDEV_COLOR_A(col)`. -/
def FBDEV_COLOR_A (col : Nat) : Nat := (col >>> 24) &&& 0xff

/-- The macro `FBDEV_COLOR_R(col)`. -/
def FBDEV_COLOR_R (col : Nat) : Nat := (col >>> 16) &&& 0xff

/-- The macro `FBDEV_COLOR_G(col)`. -/
def FBDEV_COLOR_G (col : Nat) : Nat := (col >>> 8) &&& 0xff

/-- The macro `FBDEV_COLOR_B(col)`. -/
def FBDEV_COLOR_B (col : Nat) : Nat := (col >>> 0) &&& 0xff

/-- The macro `FBDEV_COLOR_ARGB(a, r, g, b)` on `unsigned` operands. -/
def FBDEV_COLOR_ARGB (a r g b : Nat) : Nat :=
  ((a <<< 24) % UINT_MOD) ||| ((r <<< 16) % UINT_MOD) ||| ((g <<< 8) % UINT_MOD) |||
    ((b <<< 0) % UINT_MOD)

/-- The macro `FBDEV_BLEND_CHANNEL(blend, c1, c2)` on `unsigned` operands. -/
def FBDEV_BLEND_CHANNEL (blend c1 c2 : Nat) : Nat :=
  (((255 + UINT_MOD - blend % UINT_MOD) % UINT_MOD * c1 + blend * c2) % UINT_MOD) >>> 8

/-- The macro `FBDEV_BLEND_ARGB8888(blend, color, r, g, b)`. -/
def FBDEV_BLEND_ARGB8888 (blend color r g b : Nat) : Nat :=
  FBDEV_COLOR_ARGB (FBDEV_COLOR_A color)
    (FBDEV_BLEND_CHANNEL blend (FBDEV_COLOR_R color) r)
    (FBDEV_BLEND_CHANNEL blend (FBDEV_COLOR_G color) g)
    (FBDEV_BLEND_CHANNEL blend (FBDEV_COLOR_B color) b)

/-- The two single-pixel conversions of `gfx/scaler/pixconv.h` that
`fbdev_blend_pixel` calls; they are not among the sources and are taken as
given. -/
structure pixconv where
  conv_rgb565_argb8888 : Nat → Nat
  conv_argb8888_rgb565 : Nat → Nat

/-- `fbdev_blend_pixel` (lines 130-161): the new value of the pixel that
holds `dst`. -/
def fbdev_blend_pixel (cv : pixconv) (blend dst bpp r g b : Nat) : Nat :=
  if blend = 0 then dst
  else if bpp = 2 then
    let color :=
      if blend = 255 then FBDEV_COLOR_ARGB 0xff r g b
      else FBDEV_BLEND_ARGB8888 blend (cv.conv_rgb565_argb8888 dst) r g b
    cv.conv_argb8888_rgb565 color
  else if bpp = 4 then
    if blend = 255 then FBDEV_COLOR_ARGB 0xff r g b
    else FBDEV_BLEND_ARGB8888 blend dst r g b
  else dst

/-- Modelled from the spec: `FONT_COLOR_GET_RED` of `gfx/font_driver.h`, which
is not among the sources; text colours are RGBA words, red in the top byte. -/
def FONT_COLOR_GET_RED (col : Nat) : Nat := (col >>> 24) &&& 0xff

/-- Modelled from the spec: `FONT_COLOR_GET_GREEN` of `gfx/font_driver.h`. -/
def FONT_COLOR_GET_GREEN (col : Nat) : Nat := (col >>> 16) &&& 0xff

/-- Modelled from the spec: `FONT_COLOR_GET_BLUE` of `gfx/font_driver.h`. -/
def FONT_COLOR_GET_BLUE (col : Nat) : Nat := (col >>> 8) &&& 0xff

/-- Conversion of an `int` to `unsigned`. -/
def to_unsigned (z : Int) : Nat := (z % (UINT_MOD : Int)).toNat

/-- Conversion of an `unsigned` to `int` (two's complement). -/
def to_int (n : Nat) : Int :=
  if n % UINT_MOD < 2 ^ 31 then ((n % UINT_MOD : Nat) : Int)
  else ((n % UINT_MOD : Nat) : Int) - (UINT_MOD : Int)

/-- The inner loop of `fbdev_blend_glyph` (line 179) after `n` iterations:
pixel `dst_base + j` is blended with coverage byte `src (src_base + j)` for
`j < n`, in increasing order of `j`. -/
def fbdev_blend_glyph_row (cv : pixconv) (bpp color : Nat) (src : Nat → Nat)
    (src_base dst_base : Nat) (pixels : Nat → Nat) : Nat → (Nat → Nat)
  | 0 => pixels
  | j + 1 =>
    let done := fbdev_blend_glyph_row cv bpp color src src_base dst_base pixels j
    Function.update done (dst_base + j)
      (fbdev_blend_pixel cv (src (src_base + j)) (done (dst_base + j)) bpp
        (FONT_COLOR_GET_RED color) (FONT_COLOR_GET_GREEN color) (FONT_COLOR_GET_BLUE color))

/-- The outer loop of `fbdev_blend_glyph` (line 178) after `n` rows: row `i`
reads from `src + i * width` and writes from `dst + i * dst_pitch`. -/
def fbdev_blend_glyph_rows (cv : pixconv) (fb_width bpp color : Nat) (src : Nat → Nat)
    (src_base dst_base width : Nat) (pixels : Nat → Nat) : Nat → (Nat → Nat)
  | 0 => pixels
  | i + 1 =>
    fbdev_blend_glyph_row cv bpp color src (src_base + i * width) (dst_base + i * fb_width)
      (fbdev_blend_glyph_rows cv fb_width bpp color src src_base dst_base width pixels i) width

/-- `fbdev_blend_glyph` (lines 163-184) on the pixels of the page it selects
(the pending page, else the dummy page).  `src` is the buffer that the source
pointer points into and `src_base` the position of the pointer in it. -/
def fbdev_blend_glyph (cv : pixconv) (fb_width bpp : Nat) (pixels : Nat → Nat)
    (src : Nat → Nat) (src_base color width height x y : Nat) : Nat → Nat :=
  fbdev_blend_glyph_rows cv fb_width bpp color src src_base ((y * fb_width + x) % UINT_MOD)
    width pixels height

/-- Modelled from the spec: `struct font_glyph` of `gfx/font_driver.h`, which
is not among the sources: size and position of the glyph in the atlas, draw
offsets and advance. -/
structure font_glyph where
  width : Nat
  height : Nat
  atlas_offset_x : Nat
  atlas_offset_y : Nat
  draw_offset_x : Int
  draw_offset_y : Int
  advance_x : Int
  advance_y : Int
deriving DecidableEq

/-- Modelled from the spec: `struct font_atlas` of `gfx/font_driver.h`: the
coverage bytes and the size of the atlas image. -/
structure font_atlas where
  buffer : Nat → Nat
  width : Nat
  height : Nat

/-- The inner loop of the glyph scaling (lines 232-235) for row `i` after `n`
iterations. -/
def glyph_scale_row (atlas_src : Nat → Nat) (atlas_width scale glyph_width i : Nat)
    (buf : Nat → Nat) : Nat → (Nat → Nat)
  | 0 => buf
  | j + 1 =>
    Function.update (glyph_scale_row atlas_src atlas_width scale glyph_width i buf j)
      (i * glyph_width + j) (atlas_src ((i * atlas_width + j) / scale))

/-- The outer loop of the glyph scaling (lines 231-236) after `n` rows. -/
def glyph_scale_rows (atlas_src : Nat → Nat) (atlas_width scale glyph_width : Nat)
    (buf : Nat → Nat) : Nat → (Nat → Nat)
  | 0 => buf
  | i + 1 =>
    glyph_scale_row atlas_src atlas_width scale glyph_width i
      (glyph_scale_rows atlas_src atlas_width scale glyph_width buf i) glyph_width

/-- Lines 224-237 of `fbdev_gfx_draw_text`: the temporary buffer `buf` of the
scaled glyph.  `heap` is what `malloc` returned. -/
def glyph_scale_buffer (atlas : font_atlas) (glyph : font_glyph) (scale : Nat)
    (heap : Nat → Nat) : Nat → Nat :=
  let glyph_width := glyph.width * scale
  let glyph_height := glyph.height * scale
  glyph_scale_rows
    (fun k => atlas.buffer (glyph.atlas_offset_x + glyph.atlas_offset_y * atlas.width + k))
    atlas.width scale glyph_width heap glyph_height

/-- The arguments with which `fbdev_gfx_draw_text` calls `fbdev_blend_glyph`:
the position of `src` in the temporary buffer and the four `unsigned`
arguments. -/
structure blend_call where
  src_base : Nat
  width : Nat
  height : Nat
  x : Nat
  y : Nat
deriving DecidableEq

/-- Lines 216-259 of `fbdev_gfx_draw_text` without the pixels: placement and
clipping of one glyph drawn at `(x, y)`.  `none` is the `continue` of line
222. -/
def glyph_clip (fb_width fb_height : Nat) (atlas : font_atlas) (glyph : font_glyph)
    (scale : Nat) (x y : Int) : Option blend_call :=
  let base_x : Int := x + glyph.draw_offset_x * scale
  let base_y : Int := y + glyph.draw_offset_y * scale
  let max_width : Int := to_int (to_unsigned ((fb_width : Int) - base_x))
  let max_height : Int := to_int (to_unsigned ((fb_height : Int) - base_y))
  if max_width ≤ 0 ∨ max_height ≤ 0 then none
  else
    let glyph_width : Int := ((glyph.width * scale : Nat) : Int)
    let glyph_height : Int := ((glyph.height * scale : Nat) : Int)
    let src : Int := 0
    let src := if base_x < 0 then src - base_x else src
    let glyph_width := if base_x < 0 then glyph_width + base_x else glyph_width
    let base_x := if base_x < 0 then 0 else base_x
    let src := if base_y < 0 then src - base_y * (atlas.width : Int) else src
    let glyph_height := if base_y < 0 then glyph_height + base_y else glyph_height
    let base_y := if base_y < 0 then 0 else base_y
    let glyph_width := if glyph_width > max_width then max_width else glyph_width
    let glyph_height := if glyph_height > max_height then max_height else glyph_height
    some
      { src_base := src.toNat
        width := to_unsigned glyph_width
        height := to_unsigned glyph_height
        x := to_unsigned base_x
        y := to_unsigned base_y }

/-- What text drawing has produced so far: the pixels of the page, the pen
position and the code points requested from the glyph collaborator, in order. -/
structure draw_state where
  pixels : Nat → Nat
  x : Int
  y : Int
  lookups : List Nat

/-- The glyph lookup of lines 207-214 (and 116-122): `get_glyph(code)`, then
`get_glyph('?')` when that fails; returns the glyph found and the requests
made. -/
def lookup_glyph (get_glyph : Nat → Option font_glyph) (code : Nat) :
    Option font_glyph × List Nat :=
  match get_glyph code with
  | some g => (some g, [code])
  | none => (get_glyph 63, [code, 63])

/-- One iteration of the loop of `fbdev_gfx_draw_text` (lines 201-265), for
the message byte `c`. -/
def fbdev_gfx_draw_text_step (cv : pixconv) (fb_width fb_height bpp : Nat)
    (get_glyph : Nat → Option font_glyph) (atlas : font_atlas) (heap : Nat → Nat)
    (scale color : Nat) (st : draw_state) (c : Nat) : draw_state :=
  let found := lookup_glyph get_glyph (c % 256)
  let st := { st with lookups := st.lookups ++ found.2 }
  match found.1 with
  | none => st
  | some glyph =>
    match glyph_clip fb_width fb_height atlas glyph scale st.x st.y with
    | none => st
    | some call =>
      { st with
        pixels := fbdev_blend_glyph cv fb_width bpp st.pixels
          (glyph_scale_buffer atlas glyph scale heap) call.src_base color
          call.width call.height call.x call.y
        x := st.x + glyph.advance_x * scale
        y := st.y + glyph.advance_y * scale }

/-- `fbdev_gfx_draw_text` (lines 186-266) for non-null arguments: `msg` is the
C string from the pointer passed in up to its terminating NUL. -/
def fbdev_gfx_draw_text (cv : pixconv) (fb_width fb_height bpp : Nat)
    (get_glyph : Nat → Option font_glyph) (atlas : font_atlas) (heap : Nat → Nat)
    (pixels : Nat → Nat) (msg : List Nat) (scale color : Nat) (x y : Int) : draw_state :=
  msg.foldl (fbdev_gfx_draw_text_step cv fb_width fb_height bpp get_glyph atlas heap scale color)
    { pixels := pixels, x := x, y := y, lookups := [] }

/-- Modelled from the spec: `utf8_walk` of `encodings/utf.h`, which is not
among the sources: decodes the UTF-8 sequence at the start of `msg` without
validating it and returns the code point and the number of bytes consumed
(1 to 4, by the first byte). -/
def utf8_walk (msg : List Nat) : Nat × Nat :=
  let first := msg.getD 0 0
  if first < 128 then (first, 1)
  else
    let ret := msg.getD 1 0 &&& 0x3F
    if first ≥ 0xE0 then
      let ret := (ret <<< 6) ||| (msg.getD 2 0 &&& 0x3F)
      if first ≥ 0xF0 then
        let ret := (ret <<< 6) ||| (msg.getD 3 0 &&& 0x3F)
        (ret ||| ((first &&& 7) <<< 18), 4)
      else (ret ||| ((first &&& 15) <<< 12), 3)
    else (ret ||| ((first &&& 31) <<< 6), 2)

/-- The loop of `fbdev_get_message_width` (lines 106-125) with counter `i`,
the sum `delta_x` and the glyph requests made so far; every iteration advances
`i`, so `msg_len` iterations are the most it makes. -/
def fbdev_get_message_width_loop (get_glyph : Nat → Option font_glyph) (msg : List Nat)
    (msg_len : Nat) : Nat → Nat → Int → List Nat → Int × List Nat
  | 0, _, delta_x, lookups => (delta_x, lookups)
  | fuel + 1, i, delta_x, lookups =>
    if i < msg_len then
      let walked := utf8_walk (msg.drop i)
      let code := walked.1
      let skip := walked.2
      let i := if skip > 1 then i + (skip - 1) else i
      let found := lookup_glyph get_glyph code
      let lookups := lookups ++ found.2
      match found.1 with
      | none => fbdev_get_message_width_loop get_glyph msg msg_len fuel (i + 1) delta_x lookups
      | some glyph =>
        fbdev_get_message_width_loop get_glyph msg msg_len fuel (i + 1)
          (delta_x + glyph.advance_x) lookups
    else (delta_x, lookups)

/-- `fbdev_get_message_width` (lines 95-128) for a non-null font: the width
`delta_x * scale` and the code points requested from the glyph collaborator. -/
def fbdev_get_message_width (get_glyph : Nat → Option font_glyph) (msg : List Nat)
    (msg_len scale : Nat) : Int × List Nat :=
  let r := fbdev_get_message_width_loop get_glyph msg msg_len msg_len 0 0 []
  (r.1 * scale, r.2)

/-- Modelled from the spec: `enum text_alignment` of `gfx/font_driver.h`. -/
inductive text_alignment where
  | TEXT_ALIGN_LEFT
  | TEXT_ALIGN_RIGHT
  | TEXT_ALIGN_CENTER
deriving DecidableEq

/-- `fbdev_render_line` (lines 268-294).  `x` and `y` are the two `roundf`
results of lines 276-277; `msg` is the C string from the pointer passed in. -/
def fbdev_render_line (cv : pixconv) (fb_width fb_height bpp : Nat)
    (get_glyph : Nat → Option font_glyph) (atlas : font_atlas) (heap : Nat → Nat)
    (pixels : Nat → Nat) (msg : List Nat) (msg_len scale color : Nat) (x y : Int)
    (text_align : text_alignment) : draw_state :=
  let x : Int :=
    match text_align with
    | text_alignment.TEXT_ALIGN_RIGHT =>
      x - (fbdev_get_message_width get_glyph msg msg_len scale).1
    | text_alignment.TEXT_ALIGN_CENTER =>
      x - Int.tdiv (fbdev_get_message_width get_glyph msg msg_len scale).1 2
    | text_alignment.TEXT_ALIGN_LEFT => x
  fbdev_gfx_draw_text cv fb_width fb_height bpp get_glyph atlas heap pixels msg scale color x y

/-- One call of `fbdev_render_line` as `fbdev_render_message` made it: the
length it passed and the code points that the call requested glyphs for. -/
structure line_render where
  msg_len : Nat
  lookups : List Nat
deriving DecidableEq

/-- The pixels after `fbdev_render_message` and its calls of
`fbdev_render_line`, in order. -/
structure render_result where
  pixels : Nat → Nat
  renders : List line_render

/-- The `for (;;)` loop of `fbdev_render_message` (lines 318-340) with the
rest `msg` of the message and the line counter `lines`.  `line_pos lines` is
the rounded pen position of that line.  Every iteration but the last consumes
a line break, so `msg.length + 1` iterations are the most it makes. -/
def fbdev_render_message_loop (cv : pixconv) (fb_width fb_height bpp : Nat)
    (get_glyph : Nat → Option font_glyph) (atlas : font_atlas) (heap : Nat → Nat)
    (scale color : Nat) (line_pos : Nat → Int × Int) (text_align : text_alignment) :
    Nat → List Nat → Nat → render_result → render_result
  | 0, _, _, r => r
  | fuel + 1, msg, lines, r =>
    if msg.indexOf 10 < msg.length then
      -- delim
      let msg_len := msg.indexOf 10
      let d := fbdev_render_line cv fb_width fb_height bpp get_glyph atlas heap r.pixels msg
        msg_len scale color (line_pos lines).1 (line_pos lines).2 text_align
      fbdev_render_message_loop cv fb_width fb_height bpp get_glyph atlas heap scale color
        line_pos text_align fuel (msg.drop (msg_len + 1)) (lines + 1)
        { pixels := d.pixels
          renders := r.renders ++ [{ msg_len := msg_len, lookups := d.lookups }] }
    else
      let msg_len := msg.length
      let d := fbdev_render_line cv fb_width fb_height bpp get_glyph atlas heap r.pixels msg
        msg_len scale color (line_pos lines).1 (line_pos lines).2 text_align
      { pixels := d.pixels
        renders := r.renders ++ [{ msg_len := msg_len, lookups := d.lookups }] }

/-- `fbdev_render_message` (lines 296-341).  `line_metrics` tells whether the
glyph collaborator has `get_line_metrics` and it succeeds. -/
def fbdev_render_message (cv : pixconv) (fb_width fb_height bpp : Nat)
    (get_glyph : Nat → Option font_glyph) (atlas : font_atlas) (heap : Nat → Nat)
    (pixels : Nat → Nat) (line_metrics : Bool) (msg : List Nat) (scale color : Nat)
    (line_pos : Nat → Int × Int) (text_align : text_alignment) : render_result :=
  if !line_metrics then
    let d := fbdev_render_line cv fb_width fb_height bpp get_glyph atlas heap pixels msg
      msg.length scale color (line_pos 0).1 (line_pos 0).2 text_align
    { pixels := d.pixels, renders := [{ msg_len := msg.length, lookups := d.lookups }] }
  else
    fbdev_render_message_loop cv fb_width fb_height bpp get_glyph atlas heap scale color
      line_pos text_align (msg.length + 1) msg 0 { pixels := pixels, renders := [] }

/-! ## Sample inputs for text rendering -/

/-- Pixel conversions for the samples; only 4-byte pixels are drawn there. -/
def sample_pixconv : pixconv :=
  { conv_rgb565_argb8888 := fun p => p, conv_argb8888_rgb565 := fun p => p }

/-- A 16x16 atlas whose coverage byte at position `k` is `k`, so that
the byte tells which atlas pixel was read. -/
def sample_atlas : font_atlas :=
  { buffer := fun k => k % 256, width := 16, height := 16 }

/-- A 16x16 atlas of full coverage. -/
def solid_atlas : font_atlas :=
  { buffer := fun _ => 255, width := 16, height := 16 }

/-- An 8x8 glyph at the top left corner of the atlas, drawn without offset. -/
def sample_glyph : font_glyph :=
  { width := 8, height := 8, atlas_offset_x := 0, atlas_offset_y := 0,
    draw_offset_x := 0, draw_offset_y := 0, advance_x := 8, advance_y := 0 }

/-- A 4x4 glyph at the top left corner of the atlas. -/
def small_glyph : font_glyph :=
  { width := 4, height := 4, atlas_offset_x := 0, atlas_offset_y := 0,
    draw_offset_x := 0, draw_offset_y := 0, advance_x := 4, advance_y := 0 }

/-- A glyph collaborator with one glyph for every printable ASCII character
and for Latin-1 letters, none for control characters. -/
def sample_get_glyph (code : Nat) : Option font_glyph :=
  if (32 ≤ code ∧ code < 127) ∨ (160 ≤ code ∧ code < 256) then some sample_glyph else none

/-- Pen positions of successive lines: 16 rows apart from (0, 100). -/
def sample_line_pos (lines : Nat) : Int × Int := (0, 100 + 16 * (lines : Int))

/-- A page of black pixels (with black memory behind it). -/
def black_pixels : Nat → Nat := fun _ => 0

/-- A freshly allocated buffer, taken to hold zeros. -/
def zero_heap : Nat → Nat := fun _ => 0

/-! ## Scaling a frame into a page (`fbdev_get_page`, lines 412-450)

The bytes of the mapped surface are a map from the byte position to the byte.
The aspect ratio returned by `video_driver_get_aspect_ratio` is the exact
ratio `aspect_num / aspect_den`; for ratios and sizes that `float` represents
exactly this is what the source computes. -/

/-- The libc call `memset(mem + start, 0, len)`. -/
def memset_zero (mem : Nat → Nat) (start len : Nat) : Nat → Nat :=
  fun k => if start ≤ k ∧ k < start + len then 0 else mem k

/-- The locals `new_width`, `new_height`, `x` and `y` of `fbdev_get_page`. -/
structure scale_rect where
  new_width : Nat
  new_height : Nat
  x : Nat
  y : Nat
deriving DecidableEq

/-- Lines 413-428 of `fbdev_get_page`: the centred rectangle of the aspect
ratio `aspect_num / aspect_den` in a `fb_width` x `fb_height` destination. -/
def fbdev_get_page_rect (fb_width fb_height aspect_num aspect_den : Nat) : scale_rect :=
  if fb_width * aspect_den > fb_height * aspect_num then
    let new_width := fb_height * aspect_num / aspect_den
    { new_width := new_width, new_height := fb_height, x := (fb_width - new_width) / 2, y := 0 }
  else
    let new_height := fb_width * aspect_den / aspect_num
    { new_width := fb_width, new_height := new_height, x := 0,
      y := (fb_height - new_height) / 2 }

/-- The `for (i = y; i < fbdev->height - y; i++)` loop of `fbdev_get_page`
(lines 433-437) with `n` rows left and the pointer at `dst`. -/
def fbdev_get_page_clear_sides (bpp new_pitch x : Nat) : Nat → Nat → (Nat → Nat) → (Nat → Nat)
  | 0, _, mem => mem
  | n + 1, dst, mem =>
    fbdev_get_page_clear_sides bpp new_pitch x n (dst + new_pitch)
      (memset_zero (memset_zero mem dst (x * bpp)) (dst + new_pitch - x * bpp) (x * bpp))

/-- Lines 430-437 of `fbdev_get_page`: the bars cleared around the image, for
the page that starts at byte `buf`. -/
def fbdev_get_page_clear (mem : Nat → Nat) (buf fb_width fb_height bpp : Nat)
    (r : scale_rect) : Nat → Nat :=
  let new_pitch := fb_width * bpp % UINT_MOD
  let dst := buf
  let mem := memset_zero mem dst (r.y * new_pitch % UINT_MOD)
  let dst := dst + r.y * new_pitch % UINT_MOD
  let mem := memset_zero mem (dst + r.new_height * new_pitch % UINT_MOD)
    (r.y * new_pitch % UINT_MOD)
  fbdev_get_page_clear_sides bpp new_pitch r.x (fb_height - r.y - r.y) dst mem

/-- Modelled from the spec: `video_frame_scale` of `gfx/video_frame.h`, which
is not among the sources: it writes `out_height` rows of `out_width` pixels of
the scaled frame, `out_pitch` bytes apart, from byte `out` on, and nothing
else.  `image row k` is byte `k` of row `row` of the scaled frame. -/
def video_frame_scale (mem : Nat → Nat) (out out_width out_height out_pitch bpp : Nat)
    (image : Nat → Nat → Nat) : Nat → Nat :=
  fun k =>
    if out ≤ k ∧ (k - out) / out_pitch < out_height ∧ (k - out) % out_pitch < out_width * bpp
    then image ((k - out) / out_pitch) ((k - out) % out_pitch)
    else mem k

/-- Lines 412-450 of `fbdev_get_page`: the bytes of the surface after the
frame has been scaled into the page that starts at byte `buf`. -/
def fbdev_get_page_draw (mem : Nat → Nat) (buf fb_width fb_height bpp : Nat)
    (aspect_num aspect_den : Nat) (image : Nat → Nat → Nat) : Nat → Nat :=
  let r := fbdev_get_page_rect fb_width fb_height aspect_num aspect_den
  let new_pitch := fb_width * bpp % UINT_MOD
  let mem := fbdev_get_page_clear mem buf fb_width fb_height bpp r
  let dst := buf + (r.y * fb_width + r.x) * bpp % UINT_MOD
  video_frame_scale mem dst r.new_width r.new_height new_pitch bpp image

/-- Whether the pixel in row `row`, column `col` lies in the image rectangle. -/
def in_rect (r : scale_rect) (row col : Nat) : Prop :=
  r.x ≤ col ∧ col < r.x + r.new_width ∧ r.y ≤ row ∧ row < r.y + r.new_height

instance (r : scale_rect) (row col : Nat) : Decidable (in_rect r row col) := by
  unfold in_rect
  infer_instance

/-- A surface whose bytes are all `0xAA`, as left by earlier frames or a menu. -/
def stale_bytes : Nat → Nat := fun _ => 0xAA

/-- The atlas coverage byte of the pixel in column `col`, row `row` of a glyph. -/
def glyph_coverage (atlas : font_atlas) (glyph : font_glyph) (col row : Nat) : Nat :=
  atlas.buffer (glyph.atlas_offset_x + col + (glyph.atlas_offset_y + row) * atlas.width)

/-- The state in which `fbdev_gfx_draw_text` starts at pen position `(x, y)` on
a black page. -/
def pen_at (x y : Int) : draw_state :=
  { pixels := black_pixels, x := x, y := y, lookups := [] }

/-! ## Properties of mode negotiation -/

/-- The alternate depth tried by the ladder differs from the requested one. -/
theorem alt_bpp_ne (bpp : Nat) : (if bpp = 4 then 2 else 4) ≠ bpp := by
  split <;> omega

/-- The alternate depth tried by the ladder is not zero. -/
theorem alt_bpp_pos (bpp : Nat) : (if bpp = 4 then 2 else 4) ≠ 0 := by
  split <;> omega

/-- The mode-set loop only appends requests, at most one per remaining page count. -/
theorem mode_set_loop_length (dev : fbdev_device) (height page_height : Nat) :
    ∀ (n : Nat) (vinfo : fb_var_screeninfo) (reqs : List fb_var_screeninfo),
      reqs.length ≤ (mode_set_loop dev height page_height n vinfo reqs).2.2.length ∧
      (mode_set_loop dev height page_height n vinfo reqs).2.2.length ≤ reqs.length + n := by
  intro n
  induction n with
  | zero => intro vinfo reqs; simp [mode_set_loop]
  | succ n ih =>
    intro vinfo reqs
    unfold mode_set_loop
    split
    · simp
    · have h := ih { vinfo with yres_virtual := (n + 1) * page_height % UINT_MOD }
        (reqs ++ [{ vinfo with yres_virtual := (n + 1) * page_height % UINT_MOD }])
      simp only [List.length_append, List.length_singleton] at h
      cases hd : dev.put_vscreeninfo reqs.length
          { vinfo with yres_virtual := (n + 1) * page_height % UINT_MOD } with
      | some v => simp [hd]
      | none =>
        simp only [hd]
        constructor <;> omega

theorem ladder_settled_mono {r : ladder_result} {n k k' m : Nat}
    (h : ladder_settled r m k) (hm : n ≤ m) (hk : m + k ≤ n + k') : ladder_settled r n k' := by
  obtain ⟨s, hs, h1, h2⟩ := h
  exact ⟨s, hs, by omega, by omega⟩

/-- One pass through `retry_fixed`, spelled out. -/
theorem fbdev_init_ladder_fixed (dev : fbdev_device) (fbmem_size width height bpp fuel : Nat)
    (s : ladder_state) :
    fbdev_init_ladder dev fbmem_size width height bpp (fuel + 1) ladder_label.retry_fixed s =
      (let r := mode_set_loop dev height s.page_height FBDEV_MAX_PAGES
          { s.vinfo with bits_per_pixel := s.bpp * 8 % UINT_MOD } s.reqs
       let s1 : ladder_state := { s with vinfo := r.2.1, num_pages := r.1, reqs := r.2.2 }
       if r.1 = 0 then
         if s.bpp = bpp then
           if s.page_height = height then
             fbdev_init_ladder dev fbmem_size width height bpp fuel ladder_label.retry_fixed
               { s1 with bpp := if bpp = 4 then 2 else 4 }
           else
             fbdev_init_ladder dev fbmem_size width height bpp fuel ladder_label.retry_auto
               { s1 with bpp := if bpp = 4 then 2 else 4 }
         else if s.page_height = height then ladder_result.failed s1
         else
           fbdev_init_ladder dev fbmem_size width height bpp fuel ladder_label.retry_fixed
             { s1 with bpp := bpp, page_height := height, num_pages := FBDEV_MAX_PAGES }
       else ladder_result.accepted s1) := by
  rfl

/-- A pass through `retry_auto` recomputes the page height and continues at
`retry_fixed`. -/
theorem fbdev_init_ladder_auto (dev : fbdev_device) (fbmem_size width height bpp fuel : Nat)
    (s : ladder_state) (hw : width ≠ 0) (hb : s.bpp ≠ 0) :
    fbdev_init_ladder dev fbmem_size width height bpp (fuel + 1) ladder_label.retry_auto s =
      fbdev_init_ladder dev fbmem_size width height bpp (fuel + 1) ladder_label.retry_fixed
        { s with
          vinfo := { s.vinfo with yres_virtual := fbmem_size / width / s.bpp }
          page_height :=
            (page_height_loop (fbmem_size / width / s.bpp) height FBDEV_MAX_PAGES s.page_height).2 } := by
  simp [fbdev_init_ladder, hw, hb]

/-- Last pass: alternate depth, page height already the requested height. -/
theorem ladder_fixed_alt_eq (dev : fbdev_device) (fbmem_size width height bpp fuel : Nat)
    (s : ladder_state) (hb : s.bpp ≠ bpp) (hp : s.page_height = height) :
    ladder_settled
      (fbdev_init_ladder dev fbmem_size width height bpp (fuel + 1) ladder_label.retry_fixed s)
      s.reqs.length 3 := by
  rw [fbdev_init_ladder_fixed]
  have hlen := mode_set_loop_length dev height s.page_height FBDEV_MAX_PAGES
    { s.vinfo with bits_per_pixel := s.bpp * 8 % UINT_MOD } s.reqs
  simp only [hb, hp, if_false, if_true]
  rw [hp] at hlen
  split
  · exact ⟨_, Or.inr rfl, hlen.1, hlen.2⟩
  · exact ⟨_, Or.inl rfl, hlen.1, hlen.2⟩

/-- Requested depth, page height already the requested height: two passes. -/
theorem ladder_fixed_orig_eq (dev : fbdev_device) (fbmem_size width height bpp fuel : Nat)
    (s : ladder_state) (hb : s.bpp = bpp) (hp : s.page_height = height) :
    ladder_settled
      (fbdev_init_ladder dev fbmem_size width height bpp (fuel + 2) ladder_label.retry_fixed s)
      s.reqs.length 6 := by
  rw [fbdev_init_ladder_fixed]
  have hlen := mode_set_loop_length dev height s.page_height FBDEV_MAX_PAGES
    { s.vinfo with bits_per_pixel := s.bpp * 8 % UINT_MOD } s.reqs
  simp only [hb, hp, if_true]
  rw [hp, hb] at hlen
  split
  · refine ladder_settled_mono (ladder_fixed_alt_eq dev fbmem_size width height bpp fuel _
      (alt_bpp_ne bpp) rfl) hlen.1 ?_
    have := hlen.2
    dsimp only [FBDEV_MAX_PAGES] at this ⊢
    omega
  · exact ⟨_, Or.inl rfl, hlen.1, by have := hlen.2; dsimp only [FBDEV_MAX_PAGES] at this ⊢; omega⟩

/-- Alternate depth at `retry_fixed`: at most three passes remain. -/
theorem ladder_fixed_alt (dev : fbdev_device) (fbmem_size width height bpp fuel : Nat)
    (s : ladder_state) (hb : s.bpp ≠ bpp) :
    ladder_settled
      (fbdev_init_ladder dev fbmem_size width height bpp (fuel + 3) ladder_label.retry_fixed s)
      s.reqs.length 9 := by
  by_cases hp : s.page_height = height
  · exact ladder_settled_mono (ladder_fixed_alt_eq dev fbmem_size width height bpp (fuel + 2) s hb hp)
      (le_refl _) (by omega)
  · rw [fbdev_init_ladder_fixed]
    have hlen := mode_set_loop_length dev height s.page_height FBDEV_MAX_PAGES
      { s.vinfo with bits_per_pixel := s.bpp * 8 % UINT_MOD } s.reqs
    simp only [hb, hp, if_false]
    split
    · refine ladder_settled_mono (ladder_fixed_orig_eq dev fbmem_size width height bpp fuel _
        rfl rfl) hlen.1 ?_
      have := hlen.2
      dsimp only [FBDEV_MAX_PAGES] at this ⊢
      omega
    · exact ⟨_, Or.inl rfl, hlen.1, by have := hlen.2; dsimp only [FBDEV_MAX_PAGES] at this ⊢; omega⟩

/-- Alternate depth at `retry_auto`: at most three passes remain. -/
theorem ladder_auto_alt (dev : fbdev_device) (fbmem_size width height bpp fuel : Nat)
    (s : ladder_state) (hw : width ≠ 0) (h0 : s.bpp ≠ 0) (hb : s.bpp ≠ bpp) :
    ladder_settled
      (fbdev_init_ladder dev fbmem_size width height bpp (fuel + 3) ladder_label.retry_auto s)
      s.reqs.length 9 := by
  rw [fbdev_init_ladder_auto dev fbmem_size width height bpp (fuel + 2) s hw h0]
  exact ladder_fixed_alt dev fbmem_size width height bpp fuel _ hb

/-- Requested depth at `retry_fixed`: at most four passes remain. -/
theorem ladder_fixed_orig (dev : fbdev_device) (fbmem_size width height bpp fuel : Nat)
    (s : ladder_state) (hw : width ≠ 0) (hb : s.bpp = bpp) :
    ladder_settled
      (fbdev_init_ladder dev fbmem_size width height bpp (fuel + 4) ladder_label.retry_fixed s)
      s.reqs.length 12 := by
  rw [fbdev_init_ladder_fixed]
  have hlen := mode_set_loop_length dev height s.page_height FBDEV_MAX_PAGES
    { s.vinfo with bits_per_pixel := s.bpp * 8 % UINT_MOD } s.reqs
  simp only [hb, if_true]
  rw [hb] at hlen
  split
  · split
    · refine ladder_settled_mono (ladder_fixed_alt dev fbmem_size width height bpp fuel _
        (alt_bpp_ne bpp)) hlen.1 ?_
      have := hlen.2
      dsimp only [FBDEV_MAX_PAGES] at this ⊢
      omega
    · refine ladder_settled_mono (ladder_auto_alt dev fbmem_size width height bpp fuel _ hw
        (alt_bpp_pos bpp) (alt_bpp_ne bpp)) hlen.1 ?_
      have := hlen.2
      dsimp only [FBDEV_MAX_PAGES] at this ⊢
      omega
  · exact ⟨_, Or.inl rfl, hlen.1, by have := hlen.2; dsimp only [FBDEV_MAX_PAGES] at this ⊢; omega⟩

/-- Requested depth at `retry_auto`, the entry of the ladder: four passes suffice. -/
theorem ladder_auto_orig (dev : fbdev_device) (fbmem_size width height bpp fuel : Nat)
    (s : ladder_state) (hw : width ≠ 0) (h0 : bpp ≠ 0) (hb : s.bpp = bpp) :
    ladder_settled
      (fbdev_init_ladder dev fbmem_size width height bpp (fuel + 4) ladder_label.retry_auto s)
      s.reqs.length 12 := by
  rw [fbdev_init_ladder_auto dev fbmem_size width height bpp (fuel + 3) s hw (hb ▸ h0)]
  exact ladder_fixed_orig dev fbmem_size width height bpp fuel _ hw hb

/-- Once the ladder has ended, more fuel does not change its result. -/
theorem fbdev_init_ladder_fuel_succ (dev : fbdev_device) (fbmem_size width height bpp : Nat) :
    ∀ (fuel : Nat) (label : ladder_label) (s : ladder_state),
      fbdev_init_ladder dev fbmem_size width height bpp fuel label s ≠ ladder_result.out_of_fuel →
      fbdev_init_ladder dev fbmem_size width height bpp (fuel + 1) label s =
        fbdev_init_ladder dev fbmem_size width height bpp fuel label s := by
  intro fuel
  induction fuel with
  | zero => intro label s h; exact absurd rfl h
  | succ k ih =>
    have hfix : ∀ s : ladder_state,
        fbdev_init_ladder dev fbmem_size width height bpp (k + 1) ladder_label.retry_fixed s ≠
          ladder_result.out_of_fuel →
        fbdev_init_ladder dev fbmem_size width height bpp (k + 1 + 1) ladder_label.retry_fixed s =
          fbdev_init_ladder dev fbmem_size width height bpp (k + 1) ladder_label.retry_fixed s := by
      intro s h
      rw [fbdev_init_ladder_fixed] at h ⊢
      rw [fbdev_init_ladder_fixed dev fbmem_size width height bpp k]
      dsimp only at h ⊢
      split
      · rw [if_pos (by assumption)] at h
        split
        · rw [if_pos (by assumption)] at h
          split
          · rw [if_pos (by assumption)] at h
            exact ih _ _ h
          · rw [if_neg (by assumption)] at h
            exact ih _ _ h
        · rw [if_neg (by assumption)] at h
          split
          · rfl
          · rw [if_neg (by assumption)] at h
            exact ih _ _ h
      · rfl
    intro label s h
    cases label with
    | retry_fixed => exact hfix s h
    | retry_auto =>
      by_cases hz : width = 0 ∨ s.bpp = 0
      · simp [fbdev_init_ladder, hz]
      · have hw : width ≠ 0 := fun e => hz (Or.inl e)
        have hb : s.bpp ≠ 0 := fun e => hz (Or.inr e)
        rw [fbdev_init_ladder_auto dev fbmem_size width height bpp k s hw hb] at h
        rw [fbdev_init_ladder_auto dev fbmem_size width height bpp (k + 1) s hw hb,
          fbdev_init_ladder_auto dev fbmem_size width height bpp k s hw hb]
        exact hfix _ h

/-- Fuel beyond what the ladder used is never looked at. -/
theorem fbdev_init_ladder_fuel_add (dev : fbdev_device) (fbmem_size width height bpp : Nat)
    (fuel : Nat) (label : ladder_label) (s : ladder_state)
    (h : fbdev_init_ladder dev fbmem_size width height bpp fuel label s ≠
      ladder_result.out_of_fuel) (extra : Nat) :
    fbdev_init_ladder dev fbmem_size width height bpp (fuel + extra) label s =
      fbdev_init_ladder dev fbmem_size width height bpp fuel label s := by
  induction extra with
  | zero => rfl
  | succ e ih =>
    rw [← Nat.add_assoc, fbdev_init_ladder_fuel_succ dev fbmem_size width height bpp (fuel + e)
      label s (by rw [ih]; exact h), ih]

theorem ladder_settled_ne_out_of_fuel {r : ladder_result} {n k : Nat}
    (h : ladder_settled r n k) : r ≠ ladder_result.out_of_fuel := by
  obtain ⟨s, hs, _⟩ := h
  rcases hs with hs | hs <;> rw [hs] <;> simp

/-- C3: for non-zero width and bytes-per-pixel and any device, the retry
ladder entered as `fbdev_init` enters it ends after at most four passes: with
any fuel of at least `LADDER_ROUNDS` it stops with a mode accepted or with the
failure that makes `fbdev_init` return -1, the result does not depend on the
fuel, every pass issues at most `FBDEV_MAX_PAGES` mode-set requests and the
whole ladder at most `LADDER_ROUNDS * FBDEV_MAX_PAGES`. -/
theorem fbdev_init_ladder_terminates (dev : fbdev_device)
    (fbmem_size width height bpp : Nat) (s : ladder_state) (fuel : Nat)
    (hw : width ≠ 0) (hb : bpp ≠ 0) (hs : s.bpp = bpp) (hfuel : LADDER_ROUNDS ≤ fuel) :
    (∃ s1, (fbdev_init_ladder dev fbmem_size width height bpp fuel ladder_label.retry_auto s =
          ladder_result.accepted s1 ∨
        fbdev_init_ladder dev fbmem_size width height bpp fuel ladder_label.retry_auto s =
          ladder_result.failed s1) ∧
      s.reqs.length ≤ s1.reqs.length ∧
      s1.reqs.length ≤ s.reqs.length + LADDER_ROUNDS * FBDEV_MAX_PAGES) ∧
    fbdev_init_ladder dev fbmem_size width height bpp fuel ladder_label.retry_auto s =
      fbdev_init_ladder dev fbmem_size width height bpp LADDER_ROUNDS ladder_label.retry_auto s ∧
    (∀ (page_height : Nat) (vinfo : fb_var_screeninfo) (reqs : List fb_var_screeninfo),
      (mode_set_loop dev height page_height FBDEV_MAX_PAGES vinfo reqs).2.2.length ≤
        reqs.length + FBDEV_MAX_PAGES) := by
  have h4 := ladder_auto_orig dev fbmem_size width height bpp 0 s hw hb hs
  have hne := ladder_settled_ne_out_of_fuel h4
  obtain ⟨e, rfl⟩ : ∃ e, fuel = 0 + 4 + e := ⟨fuel - 4, by simp only [LADDER_ROUNDS] at hfuel; omega⟩
  have heq := fbdev_init_ladder_fuel_add dev fbmem_size width height bpp (0 + 4)
    ladder_label.retry_auto s hne e
  refine ⟨?_, heq, fun ph v reqs => (mode_set_loop_length dev height ph _ v reqs).2⟩
  rw [heq]
  obtain ⟨s1, h1, h2, h3⟩ := h4
  exact ⟨s1, h1, h2, h3⟩

/-- What a successful end of `fbdev_init` (lines 201-249) leaves in the state. -/
theorem fbdev_init_finish_ok (dev : fbdev_device) (fbdev : fbdev_video_t)
    (vinfo : fb_var_screeninfo) (page_height : Nat) (st : fbdev_video_t)
    (h : fbdev_init_finish dev fbdev vinfo page_height = init_result.ret 0 st) :
    (st.bpp = 2 ∨ st.bpp = 4) ∧
    st.bpp = (vinfo.bits_per_pixel + 7) % UINT_MOD / 8 ∧
    page_height ≠ 0 ∧
    st.num_pages = min (vinfo.yres_virtual / page_height) FBDEV_MAX_PAGES ∧
    1 ≤ st.num_pages ∧
    st.width = vinfo.xres ∧ st.height = vinfo.yres ∧ st.vinfo = vinfo ∧
    st.fbmem_size = fbdev.fbmem_size ∧
    st.page_size = st.width * st.bpp * page_height % UINT_MOD ∧
    (∀ i : Fin FBDEV_MAX_PAGES, i.val < st.num_pages →
      st.pages i = { buf := i.val * st.page_size % UINT_MOD, offset := 0, used := false }) ∧
    st.curr_page = none ∧ st.pending_page = none ∧ st.menu_page = none ∧
    dev.calloc_ok = true := by
  unfold fbdev_init_finish at h
  dsimp only at h
  split_ifs at h with h1 h2 h3 h4
  all_goals first
    | (injection h with hc _; exact absurd hc (by decide))
    | (injection h with _ hst
       subst hst
       simp only [not_and_or, not_not] at h1
       refine ⟨h1, rfl, h2, ?_, ?_, rfl, rfl, rfl, rfl, rfl, ?_, rfl, rfl, rfl, by assumption⟩
       · dsimp only [FBDEV_MAX_PAGES] at *
         generalize vinfo.yres_virtual / page_height = q at *
         omega
       · dsimp only [FBDEV_MAX_PAGES] at *
         generalize vinfo.yres_virtual / page_height = q at *
         omega
       · intro i hi
         simp only [hi, if_true])

/-- A successful `fbdev_init` went through an accepted mode-set request and the
final part of the function. -/
theorem fbdev_init_ok (dev : fbdev_device) (fbdev st : fbdev_video_t)
    (h : fbdev_init dev fbdev = init_result.ret 0 st) :
    ∃ vinfo s, dev.get_vscreeninfo = some vinfo ∧
      fbdev_init_ladder dev fbdev.fbmem_size vinfo.xres vinfo.yres
        ((vinfo.bits_per_pixel + 7) % UINT_MOD / 8) LADDER_ROUNDS ladder_label.retry_auto
        (fbdev_init_entry fbdev vinfo) = ladder_result.accepted s ∧
      fbdev_init_finish dev { fbdev with bpp := s.bpp, num_pages := s.num_pages }
        s.vinfo s.page_height = init_result.ret 0 st := by
  unfold fbdev_init at h
  cases hget : dev.get_vscreeninfo with
  | none =>
    rw [hget] at h
    injection h with hc _
    exact absurd hc (by decide)
  | some vinfo =>
    rw [hget] at h
    dsimp only at h
    cases hl : fbdev_init_ladder dev fbdev.fbmem_size vinfo.xres vinfo.yres
        ((vinfo.bits_per_pixel + 7) % UINT_MOD / 8) LADDER_ROUNDS ladder_label.retry_auto
        (fbdev_init_entry fbdev vinfo) with
    | accepted s =>
      rw [hl] at h
      exact ⟨vinfo, s, rfl, hl, h⟩
    | failed s =>
      rw [hl] at h
      injection h with hc _
      exact absurd hc (by decide)
    | trap => rw [hl] at h; cases h
    | out_of_fuel => rw [hl] at h; cases h

/-- C1 (as amended): when `fbdev_init` returns 0 and the geometry that the
device wrote back on accepting the mode fits the surface
(`xres * bpp * yres_virtual <= fbmem_size`), the pages fit the surface:
`page_size = width * bpp * page_height` for a non-zero page height,
`num_pages * page_size <= fbmem_size`, and every page `i < num_pages` starts at
byte `i * page_size` and ends inside the surface. -/
theorem fbdev_init_pages_within_surface (dev : fbdev_device) (fbdev st : fbdev_video_t)
    (h : fbdev_init dev fbdev = init_result.ret 0 st)
    (hsz : fbdev.fbmem_size < UINT_MOD)
    (hfit : st.vinfo.xres * st.bpp * st.vinfo.yres_virtual ≤ st.fbmem_size) :
    st.fbmem_size = fbdev.fbmem_size ∧
    (∃ page_height, page_height ≠ 0 ∧
      st.page_size = st.width * st.bpp * page_height ∧
      st.num_pages * page_height ≤ st.vinfo.yres_virtual) ∧
    st.num_pages * st.page_size ≤ st.fbmem_size ∧
    (∀ i : Fin FBDEV_MAX_PAGES, i.val < st.num_pages →
      (st.pages i).buf = i.val * st.page_size ∧
      (st.pages i).buf + st.page_size ≤ st.fbmem_size) := by
  obtain ⟨vinfo, s, _, _, hfin⟩ := fbdev_init_ok dev fbdev st h
  obtain ⟨_, _, hph, hnp, hnp1, hw, _, hv, hmem, hps, hpages, _⟩ :=
    fbdev_init_finish_ok dev _ s.vinfo s.page_height st hfin
  have hmem2 : st.fbmem_size = fbdev.fbmem_size := hmem
  rw [hv, ← hw] at hfit
  have hle : st.num_pages * s.page_height ≤ s.vinfo.yres_virtual := by
    have h1 : st.num_pages ≤ s.vinfo.yres_virtual / s.page_height := by
      rw [hnp]; exact min_le_left _ _
    calc st.num_pages * s.page_height
        ≤ s.vinfo.yres_virtual / s.page_height * s.page_height :=
          Nat.mul_le_mul_right _ h1
      _ ≤ s.vinfo.yres_virtual := Nat.div_mul_le_self _ _
  have hbig : st.num_pages * (st.width * st.bpp * s.page_height) ≤ st.fbmem_size := by
    calc st.num_pages * (st.width * st.bpp * s.page_height)
        = st.width * st.bpp * (st.num_pages * s.page_height) := by ring
      _ ≤ st.width * st.bpp * s.vinfo.yres_virtual := Nat.mul_le_mul_left _ hle
      _ ≤ st.fbmem_size := hfit
  have hone : st.width * st.bpp * s.page_height ≤ st.fbmem_size := by
    calc st.width * st.bpp * s.page_height
        = 1 * (st.width * st.bpp * s.page_height) := (Nat.one_mul _).symm
      _ ≤ st.num_pages * (st.width * st.bpp * s.page_height) := Nat.mul_le_mul_right _ hnp1
      _ ≤ st.fbmem_size := hbig
  have hps2 : st.page_size = st.width * st.bpp * s.page_height := by
    rw [hps]
    exact Nat.mod_eq_of_lt (by omega)
  have htot : st.num_pages * st.page_size ≤ st.fbmem_size := by rw [hps2]; exact hbig
  refine ⟨hmem2, ⟨s.page_height, hph, hps2, by rw [hv]; exact hle⟩, htot, ?_⟩
  intro i hi
  have hi1 : (i.val + 1) * st.page_size ≤ st.num_pages * st.page_size :=
    Nat.mul_le_mul_right _ hi
  have hbuf : (st.pages i).buf = i.val * st.page_size := by
    rw [hpages i hi]
    exact Nat.mod_eq_of_lt (by rw [Nat.add_mul] at hi1; omega)
  refine ⟨hbuf, ?_⟩
  rw [hbuf]
  rw [Nat.add_mul] at hi1
  omega

/-- C1 (counterexample): a 614400-byte surface holds one 640x480 page at 2
bytes per pixel, yet when the device accepts the first mode-set request
(`yres_virtual = 3 * 480`) `fbdev_init` returns 0 with three pages of 614400
bytes each. -/
theorem fbdev_init_pages_overrun :
    ∃ st, fbdev_init (dev_accept_all (sample_vinfo 640 480 16))
        (sample_fbdev 614400 640 480 2) = init_result.ret 0 st ∧
      st.fbmem_size = 614400 ∧ st.num_pages = 3 ∧ st.page_size = 614400 ∧
      st.page_size = st.width * st.bpp * 480 ∧
      ¬ (st.num_pages * st.page_size ≤ st.fbmem_size) ∧
      ¬ ((st.pages 1).buf + st.page_size ≤ st.fbmem_size) :=
  ⟨_, rfl, rfl, rfl, rfl, rfl, by decide, by decide⟩

/-- C1 (witness): the 2,073,600-byte surface with a 640x480, 16-bit device
that accepts the first request. -/
theorem fbdev_init_pages_within_surface_witness :
    (sample_fbdev 2073600 640 480 2).fbmem_size < UINT_MOD ∧
    (let st := (fbdev_init (dev_accept_all (sample_vinfo 640 480 16))
        (sample_fbdev 2073600 640 480 2)).state (sample_fbdev 0 0 0 0)
     st.num_pages * st.page_size ≤ st.fbmem_size ∧ (st.pages 2).buf = 2 * st.page_size) :=
  ⟨by decide,
   let r := fbdev_init_pages_within_surface (dev_accept_all (sample_vinfo 640 480 16))
     (sample_fbdev 2073600 640 480 2)
     ((fbdev_init (dev_accept_all (sample_vinfo 640 480 16))
        (sample_fbdev 2073600 640 480 2)).state (sample_fbdev 0 0 0 0))
     rfl (by decide) (by decide)
   ⟨r.2.2.1, (r.2.2.2 2 (by decide)).1⟩⟩

/-- C3 (witness): a 640x480, 16-bit device that rejects every request, on the
2,073,600-byte surface, with more fuel than needed. -/
theorem fbdev_init_ladder_terminates_witness :
    (640 ≠ 0 ∧ 2 ≠ 0 ∧
      (fbdev_init_entry (sample_fbdev 2073600 640 480 2) (sample_vinfo 640 480 16)).bpp = 2 ∧
      LADDER_ROUNDS ≤ 7) ∧
    fbdev_init_ladder (dev_reject_all (sample_vinfo 640 480 16)) 2073600 640 480 2 7
        ladder_label.retry_auto
        (fbdev_init_entry (sample_fbdev 2073600 640 480 2) (sample_vinfo 640 480 16)) =
      fbdev_init_ladder (dev_reject_all (sample_vinfo 640 480 16)) 2073600 640 480 2
        LADDER_ROUNDS ladder_label.retry_auto
        (fbdev_init_entry (sample_fbdev 2073600 640 480 2) (sample_vinfo 640 480 16)) :=
  ⟨⟨by decide, by decide, rfl, by decide⟩,
   (fbdev_init_ladder_terminates (dev_reject_all (sample_vinfo 640 480 16)) 2073600 640 480 2
      (fbdev_init_entry (sample_fbdev 2073600 640 480 2) (sample_vinfo 640 480 16)) 7
      (by decide) (by decide) rfl (by decide)).2.1⟩

/-- C2: when `fbdev_init` returns 0 the bytes-per-pixel is 2 or 4 and
`1 <= num_pages <= FBDEV_MAX_PAGES`; and when the geometry written back by the
device on acceptance has another bytes-per-pixel, or has fewer virtual rows
than one page (`yres_virtual / page_height` is zero pages), `fbdev_init`
returns -1. -/
theorem fbdev_init_bpp_and_page_count (dev : fbdev_device) (fbdev : fbdev_video_t) :
    (∀ st, fbdev_init dev fbdev = init_result.ret 0 st →
      (st.bpp = 2 ∨ st.bpp = 4) ∧ 1 ≤ st.num_pages ∧ st.num_pages ≤ FBDEV_MAX_PAGES) ∧
    (∀ vinfo s, dev.get_vscreeninfo = some vinfo →
      fbdev_init_ladder dev fbdev.fbmem_size vinfo.xres vinfo.yres
        ((vinfo.bits_per_pixel + 7) % UINT_MOD / 8) LADDER_ROUNDS ladder_label.retry_auto
        (fbdev_init_entry fbdev vinfo) = ladder_result.accepted s →
      ((vinfo_bpp s.vinfo ≠ 2 ∧ vinfo_bpp s.vinfo ≠ 4) ∨
        s.vinfo.yres_virtual < s.page_height) →
      ∃ st, fbdev_init dev fbdev = init_result.ret (-1) st) := by
  constructor
  · intro st h
    obtain ⟨vinfo, s, _, _, hfin⟩ := fbdev_init_ok dev fbdev st h
    obtain ⟨hb, _, _, hnp, hnp1, _⟩ := fbdev_init_finish_ok dev _ s.vinfo s.page_height st hfin
    exact ⟨hb, hnp1, by rw [hnp]; exact min_le_right _ _⟩
  · intro vinfo s hget hl hbad
    unfold fbdev_init
    rw [hget]
    dsimp only
    rw [hl]
    dsimp only
    unfold fbdev_init_finish
    dsimp only
    by_cases hb : (s.vinfo.bits_per_pixel + 7) % UINT_MOD / 8 ≠ 2 ∧
        (s.vinfo.bits_per_pixel + 7) % UINT_MOD / 8 ≠ 4
    · rw [if_pos hb]
      exact ⟨_, rfl⟩
    · rw [if_neg hb]
      have hlt : s.vinfo.yres_virtual < s.page_height := by
        rcases hbad with h | h
        · exact absurd h hb
        · exact h
      have hph : s.page_height ≠ 0 := by omega
      rw [if_neg hph, if_pos (Nat.div_eq_of_lt hlt)]
      exact ⟨_, rfl⟩

/-- C2 (witness): success on the 2,073,600-byte surface; a device that answers
with 24 bits per pixel; a device that answers with 100 virtual rows. -/
theorem fbdev_init_bpp_and_page_count_witness :
    (((fbdev_init (dev_accept_all (sample_vinfo 640 480 16))
          (sample_fbdev 2073600 640 480 2)).state (sample_fbdev 0 0 0 0)).bpp = 2 ∨
      ((fbdev_init (dev_accept_all (sample_vinfo 640 480 16))
          (sample_fbdev 2073600 640 480 2)).state (sample_fbdev 0 0 0 0)).bpp = 4) ∧
    (∃ st, fbdev_init (dev_accept_depth (sample_vinfo 640 480 16) 24)
        (sample_fbdev 2073600 640 480 2) = init_result.ret (-1) st) ∧
    (∃ st, fbdev_init (dev_accept_rows (sample_vinfo 640 480 16) 100)
        (sample_fbdev 2073600 640 480 2) = init_result.ret (-1) st) :=
  ⟨((fbdev_init_bpp_and_page_count (dev_accept_all (sample_vinfo 640 480 16))
        (sample_fbdev 2073600 640 480 2)).1 _ rfl).1,
   (fbdev_init_bpp_and_page_count (dev_accept_depth (sample_vinfo 640 480 16) 24)
        (sample_fbdev 2073600 640 480 2)).2 (sample_vinfo 640 480 16) _ rfl rfl
        (Or.inl (by decide)),
   (fbdev_init_bpp_and_page_count (dev_accept_rows (sample_vinfo 640 480 16) 100)
        (sample_fbdev 2073600 640 480 2)).2 (sample_vinfo 640 480 16) _ rfl rfl
        (Or.inr (by decide))⟩

/-- The first iteration of the mode-set loop when the device accepts the
request as asked. -/
theorem mode_set_loop_first_accepted (dev : fbdev_device) (height page_height : Nat)
    (vinfo : fb_var_screeninfo)
    (hacc : ∀ req, dev.put_vscreeninfo 0 req = some req) :
    mode_set_loop dev height page_height FBDEV_MAX_PAGES vinfo [] =
      (FBDEV_MAX_PAGES,
        { vinfo with yres_virtual := FBDEV_MAX_PAGES * page_height % UINT_MOD },
        [{ vinfo with yres_virtual := FBDEV_MAX_PAGES * page_height % UINT_MOD }]) := by
  show mode_set_loop dev height page_height (2 + 1) vinfo [] = _
  unfold mode_set_loop
  rw [if_neg (fun h => absurd h.1 (by decide))]
  dsimp only [List.length_nil]
  rw [hacc]
  rfl

/-- The page height chosen by the first loop never exceeds the virtual height. -/
theorem page_height_loop_le (yres_virtual height : Nat) :
    ∀ (i page_height : Nat), page_height ≤ yres_virtual →
      (page_height_loop yres_virtual height i page_height).2 ≤ yres_virtual := by
  intro i
  induction i with
  | zero => intro p hp; exact hp
  | succ n ih =>
    intro p _
    unfold page_height_loop
    dsimp only
    split
    · exact Nat.div_le_self _ _
    · exact ih _ (Nat.div_le_self _ _)

/-- The ladder when the device accepts its very first request as asked. -/
theorem fbdev_init_ladder_first_accepted (dev : fbdev_device)
    (fbmem_size width height bpp fuel : Nat) (s : ladder_state)
    (hacc : ∀ req, dev.put_vscreeninfo 0 req = some req)
    (hw : width ≠ 0) (hb : s.bpp ≠ 0) (hr : s.reqs = []) :
    ∃ s1, fbdev_init_ladder dev fbmem_size width height bpp (fuel + 1)
        ladder_label.retry_auto s = ladder_result.accepted s1 ∧
      s1.page_height =
        (page_height_loop (fbmem_size / width / s.bpp) height FBDEV_MAX_PAGES s.page_height).2 ∧
      s1.vinfo.yres_virtual = FBDEV_MAX_PAGES * s1.page_height % UINT_MOD ∧
      s1.vinfo.bits_per_pixel = s.bpp * 8 % UINT_MOD ∧
      s1.vinfo.xres = s.vinfo.xres ∧ s1.vinfo.yres = s.vinfo.yres ∧
      s1.num_pages = FBDEV_MAX_PAGES ∧ s1.reqs.length = 1 := by
  rw [fbdev_init_ladder_auto dev fbmem_size width height bpp fuel s hw hb,
    fbdev_init_ladder_fixed]
  dsimp only
  rw [hr, mode_set_loop_first_accepted dev height _ _ hacc]
  dsimp only
  rw [if_neg (by decide)]
  exact ⟨_, rfl, rfl, rfl, rfl, rfl, rfl, rfl, rfl⟩

/-- C4 (as amended): if the device accepts the first mode-set request of
`fbdev_init` and writes the geometry back unchanged, the bytes-per-pixel is 2
or 4, the page height of step 3 is not zero and `FBDEV_MAX_PAGES * page_height`
does not wrap, then `fbdev_init` returns 0 with
`num_pages = FBDEV_MAX_PAGES`, the count of that first request (which is the
count `k` of step 3 exactly when `k = FBDEV_MAX_PAGES`), and
`page_size = width * bpp * page_height`. -/
theorem fbdev_init_first_request_accepted (dev : fbdev_device) (fbdev : fbdev_video_t)
    (vinfo : fb_var_screeninfo)
    (hget : dev.get_vscreeninfo = some vinfo)
    (hacc : ∀ req, dev.put_vscreeninfo 0 req = some req)
    (halloc : dev.calloc_ok = true)
    (hsz : fbdev.fbmem_size < UINT_MOD)
    (hw : vinfo.xres ≠ 0)
    (hbpp : vinfo_bpp vinfo = 2 ∨ vinfo_bpp vinfo = 4)
    (hph : (auto_page_layout fbdev.fbmem_size vinfo).2 ≠ 0)
    (hwrap : FBDEV_MAX_PAGES * (auto_page_layout fbdev.fbmem_size vinfo).2 < UINT_MOD) :
    ∃ st, fbdev_init dev fbdev = init_result.ret 0 st ∧
      st.num_pages = FBDEV_MAX_PAGES ∧
      ((auto_page_layout fbdev.fbmem_size vinfo).1 = FBDEV_MAX_PAGES →
        st.num_pages = (auto_page_layout fbdev.fbmem_size vinfo).1) ∧
      st.width = vinfo.xres ∧ st.bpp = vinfo_bpp vinfo ∧
      st.page_size = st.width * st.bpp * (auto_page_layout fbdev.fbmem_size vinfo).2 := by
  have hb0 : (fbdev_init_entry fbdev vinfo).bpp ≠ 0 := by
    show (vinfo.bits_per_pixel + 7) % UINT_MOD / 8 ≠ 0
    unfold vinfo_bpp at hbpp
    omega
  obtain ⟨s1, hl, hp1, hy1, hbits1, hx1, _, _, _⟩ :=
    fbdev_init_ladder_first_accepted dev fbdev.fbmem_size vinfo.xres vinfo.yres
      ((vinfo.bits_per_pixel + 7) % UINT_MOD / 8) 3 (fbdev_init_entry fbdev vinfo) hacc hw hb0 rfl
  have hp1' : s1.page_height = (auto_page_layout fbdev.fbmem_size vinfo).2 := hp1
  have hbits1' : s1.vinfo.bits_per_pixel = vinfo_bpp vinfo * 8 % UINT_MOD := hbits1
  have hx1' : s1.vinfo.xres = vinfo.xres := hx1
  have hbpp1 : (s1.vinfo.bits_per_pixel + 7) % UINT_MOD / 8 = vinfo_bpp vinfo := by
    rw [hbits1']
    rcases hbpp with h | h <;> rw [h] <;> rfl
  rw [← hp1'] at hph hwrap
  have hy1' : s1.vinfo.yres_virtual = FBDEV_MAX_PAGES * s1.page_height := by
    rw [hy1]; exact Nat.mod_eq_of_lt hwrap
  have hq : s1.vinfo.yres_virtual / s1.page_height = FBDEV_MAX_PAGES := by
    rw [hy1']; exact Nat.mul_div_cancel _ (Nat.pos_of_ne_zero hph)
  have hle : s1.page_height ≤ fbdev.fbmem_size / vinfo.xres / vinfo_bpp vinfo := by
    rw [hp1']
    exact page_height_loop_le _ _ _ _ (Nat.zero_le _)
  have hprod : vinfo.xres * vinfo_bpp vinfo * s1.page_height < UINT_MOD := by
    have h1 : vinfo.xres * vinfo_bpp vinfo * s1.page_height ≤
        vinfo.xres * vinfo_bpp vinfo * (fbdev.fbmem_size / vinfo.xres / vinfo_bpp vinfo) :=
      Nat.mul_le_mul_left _ hle
    have h2 : vinfo.xres * vinfo_bpp vinfo * (fbdev.fbmem_size / vinfo.xres / vinfo_bpp vinfo) ≤
        fbdev.fbmem_size := by
      calc vinfo.xres * vinfo_bpp vinfo * (fbdev.fbmem_size / vinfo.xres / vinfo_bpp vinfo)
          = vinfo.xres * (fbdev.fbmem_size / vinfo.xres / vinfo_bpp vinfo * vinfo_bpp vinfo) := by
            ring
        _ ≤ vinfo.xres * (fbdev.fbmem_size / vinfo.xres) :=
            Nat.mul_le_mul_left _ (Nat.div_mul_le_self _ _)
        _ ≤ fbdev.fbmem_size := Nat.mul_div_le _ _
    omega
  unfold fbdev_init
  rw [hget]
  dsimp only
  rw [show LADDER_ROUNDS = 3 + 1 from rfl, hl]
  dsimp only
  unfold fbdev_init_finish
  dsimp only
  rw [hbpp1, hq, hx1']
  rw [if_neg (by omega), if_neg hph, if_neg (by decide), if_pos halloc]
  refine ⟨_, rfl, rfl, fun h => h.symm, rfl, rfl, ?_⟩
  show vinfo.xres * vinfo_bpp vinfo * s1.page_height % UINT_MOD = _
  rw [Nat.mod_eq_of_lt hprod, hp1']

/-- C4 (counterexample): a 1,280,000-byte surface, 640x480 at 2 bytes per
pixel: step 3 chooses `k = 2` pages of 500 rows, yet when the device accepts
the first request unchanged `fbdev_init` ends with three pages. -/
theorem fbdev_init_first_request_not_step3_count :
    ∃ st, fbdev_init (dev_accept_all (sample_vinfo 640 480 16))
        (sample_fbdev 1280000 640 480 2) = init_result.ret 0 st ∧
      auto_page_layout 1280000 (sample_vinfo 640 480 16) = (2, 500) ∧
      st.num_pages = 3 ∧
      st.num_pages ≠ (auto_page_layout 1280000 (sample_vinfo 640 480 16)).1 :=
  ⟨_, rfl, rfl, rfl, by decide⟩

/-- C4 (witness): surface 2,073,600 bytes, width 640, height 480, 2 bytes per
pixel gives `num_pages = 3` and `page_size = 691200`. -/
theorem fbdev_init_first_request_accepted_witness :
    auto_page_layout 2073600 (sample_vinfo 640 480 16) = (3, 540) ∧
    ∃ st, fbdev_init (dev_accept_all (sample_vinfo 640 480 16))
        (sample_fbdev 2073600 640 480 2) = init_result.ret 0 st ∧
      st.num_pages = 3 ∧ st.page_size = 691200 ∧
      st.num_pages = FBDEV_MAX_PAGES ∧
      (auto_page_layout 2073600 (sample_vinfo 640 480 16)).1 = st.num_pages :=
  ⟨rfl,
   match fbdev_init_first_request_accepted (dev_accept_all (sample_vinfo 640 480 16))
      (sample_fbdev 2073600 640 480 2) (sample_vinfo 640 480 16) rfl (fun _ => rfl) rfl
      (by decide) (by decide) (Or.inl (by decide)) (by decide) (by decide) with
   | ⟨st, h, hn, hk, hw, hb, hp⟩ =>
     ⟨st, h, hn, by rw [hp, hw, hb]; rfl, hn, (hk rfl).symm⟩⟩

/-! ## Properties of the page pool -/

/-- The scan of `fbdev_get_free_page`: a page found is unused, lies in the
scanned range, and every scanned page before it is used; when no page is found
every page of the scanned range is used. -/
theorem free_page_loop_spec (pages : Fin FBDEV_MAX_PAGES → fbdev_page_t) :
    ∀ (n i : Nat),
      (∀ p, free_page_loop pages n i = some p →
        i ≤ p.val ∧ p.val < i + n ∧ (pages p).used = false ∧
        ∀ j : Fin FBDEV_MAX_PAGES, i ≤ j.val → j.val < p.val → (pages j).used = true) ∧
      (free_page_loop pages n i = none →
        ∀ j : Fin FBDEV_MAX_PAGES, i ≤ j.val → j.val < i + n → (pages j).used = true) := by
  intro n
  induction n with
  | zero =>
    intro i
    constructor
    · intro p h; simp [free_page_loop] at h
    · intro _ j h1 h2; omega
  | succ n ih =>
    intro i
    unfold free_page_loop
    by_cases hi : i < FBDEV_MAX_PAGES
    · rw [dif_pos hi]
      cases hu : (pages ⟨i, hi⟩).used with
      | false =>
        simp only [Bool.not_false, if_true]
        constructor
        · intro p hp
          injection hp with hp
          subst hp
          refine ⟨le_refl _, by simp, hu, ?_⟩
          intro j h1 h2
          simp only at h2
          omega
        · intro h; cases h
      | true =>
        simp only [Bool.not_true, Bool.false_eq_true, if_false]
        obtain ⟨ih1, ih2⟩ := ih (i + 1)
        constructor
        · intro p hp
          obtain ⟨a, b, c, d⟩ := ih1 p hp
          refine ⟨by omega, by omega, c, ?_⟩
          intro j h1 h2
          by_cases hj : j.val = i
          · have : j = ⟨i, hi⟩ := Fin.ext hj
            rw [this]; exact hu
          · exact d j (by omega) h2
        · intro hnone j h1 h2
          by_cases hj : j.val = i
          · have : j = ⟨i, hi⟩ := Fin.ext hj
            rw [this]; exact hu
          · exact ih2 hnone j (by omega) (by omega)
    · rw [dif_neg hi]
      constructor
      · intro p h; cases h
      · intro _ j h1 h2
        have := j.isLt
        omega

/-- The three page pointers. -/
theorem page_index_cases : ∀ i : Fin FBDEV_MAX_PAGES, i = 0 ∨ i = 1 ∨ i = 2 := by decide

/-- Only page 0 lies below page 1. -/
theorem page_index_lt_one :
    ∀ j : Fin FBDEV_MAX_PAGES, j.val < (1 : Fin FBDEV_MAX_PAGES).val → j = 0 := by decide

/-- Only pages 0 and 1 lie below page 2. -/
theorem page_index_lt_two :
    ∀ j : Fin FBDEV_MAX_PAGES, j.val < (2 : Fin FBDEV_MAX_PAGES).val → j = 0 ∨ j = 1 := by
  decide

/-- `fbdev_get_free_page` returns the lowest-index unused page of the pool. -/
theorem fbdev_get_free_page_lowest (fbdev : fbdev_video_t) (p : Fin FBDEV_MAX_PAGES)
    (hp : p.val < fbdev.num_pages) (hu : (fbdev.pages p).used = false)
    (hlow : ∀ j : Fin FBDEV_MAX_PAGES, j.val < p.val → (fbdev.pages j).used = true) :
    (fbdev_get_free_page fbdev).2 = p := by
  obtain ⟨h1, h2⟩ := free_page_loop_spec fbdev.pages fbdev.num_pages 0
  unfold fbdev_get_free_page
  dsimp only
  cases hs : free_page_loop fbdev.pages fbdev.num_pages 0 with
  | none =>
    have := h2 hs p (Nat.zero_le _) (by omega)
    rw [hu] at this
    cases this
  | some q =>
    dsimp only
    obtain ⟨_, _, hq, hqlow⟩ := h1 q hs
    apply Fin.ext
    rcases Nat.lt_trichotomy q.val p.val with h | h | h
    · have := hlow q h
      rw [hq] at this
      cases this
    · exact h
    · have := hqlow p (Nat.zero_le _) h
      rw [hu] at this
      cases this

/-- `fbdev_get_free_page` falls back to page 0 when every page of the pool is used. -/
theorem fbdev_get_free_page_fallback (fbdev : fbdev_video_t)
    (hall : ∀ i : Fin FBDEV_MAX_PAGES, i.val < fbdev.num_pages → (fbdev.pages i).used = true) :
    (fbdev_get_free_page fbdev).2 = 0 := by
  obtain ⟨h1, _⟩ := free_page_loop_spec fbdev.pages fbdev.num_pages 0
  unfold fbdev_get_free_page
  dsimp only
  cases hs : free_page_loop fbdev.pages fbdev.num_pages 0 with
  | none => rfl
  | some q =>
    obtain ⟨_, hlt, hq, _⟩ := h1 q hs
    have := hall q (by omega)
    rw [hq] at this
    cases this

/-- The pages after `fbdev_get_free_page`: only the returned page changes. -/
theorem fbdev_get_free_page_pages (fbdev : fbdev_video_t) :
    (fbdev_get_free_page fbdev).1.pages =
      Function.update fbdev.pages (fbdev_get_free_page fbdev).2
        { fbdev.pages (fbdev_get_free_page fbdev).2 with used := true, offset := 0 } :=
  rfl

/-- `fbdev_get_free_page` leaves every field but `pages` alone. -/
theorem fbdev_get_free_page_fields (fbdev : fbdev_video_t) :
    (fbdev_get_free_page fbdev).1 =
      { fbdev with pages := (fbdev_get_free_page fbdev).1.pages } :=
  rfl

/-- C5: for a pool of `1 <= n <= FBDEV_MAX_PAGES` pages, `fbdev_get_free_page`
returns the lowest-index page that is not used, or page 0 when every page of
the pool is used; the returned page is marked used with sub-offset 0, every
other page and every other field of the state is unchanged; and four
acquisitions in a row on a fresh 3-page pool return pages 0, 1, 2, 0. -/
theorem fbdev_get_free_page_spec (fbdev : fbdev_video_t)
    (hn1 : 1 ≤ fbdev.num_pages) (hn3 : fbdev.num_pages ≤ FBDEV_MAX_PAGES) :
    ((∃ i : Fin FBDEV_MAX_PAGES, i.val < fbdev.num_pages ∧ (fbdev.pages i).used = false) →
      (fbdev_get_free_page fbdev).2.val < fbdev.num_pages ∧
      (fbdev.pages (fbdev_get_free_page fbdev).2).used = false ∧
      ∀ j : Fin FBDEV_MAX_PAGES, j.val < (fbdev_get_free_page fbdev).2.val →
        (fbdev.pages j).used = true) ∧
    ((∀ i : Fin FBDEV_MAX_PAGES, i.val < fbdev.num_pages → (fbdev.pages i).used = true) →
      (fbdev_get_free_page fbdev).2 = 0) ∧
    (fbdev_get_free_page fbdev).1.pages (fbdev_get_free_page fbdev).2 =
      { buf := (fbdev.pages (fbdev_get_free_page fbdev).2).buf, offset := 0, used := true } ∧
    (∀ j : Fin FBDEV_MAX_PAGES, j ≠ (fbdev_get_free_page fbdev).2 →
      (fbdev_get_free_page fbdev).1.pages j = fbdev.pages j) ∧
    (fbdev_get_free_page fbdev).1 =
      { fbdev with pages := (fbdev_get_free_page fbdev).1.pages } ∧
    (fbdev.num_pages = 3 → (∀ i : Fin FBDEV_MAX_PAGES, (fbdev.pages i).used = false) →
      (fbdev_get_free_page fbdev).2 = 0 ∧
      (fbdev_get_free_page (fbdev_get_free_page fbdev).1).2 = 1 ∧
      (fbdev_get_free_page (fbdev_get_free_page (fbdev_get_free_page fbdev).1).1).2 = 2 ∧
      (fbdev_get_free_page (fbdev_get_free_page (fbdev_get_free_page
        (fbdev_get_free_page fbdev).1).1).1).2 = 0 ∧
      ∀ i : Fin FBDEV_MAX_PAGES,
        ((fbdev_get_free_page (fbdev_get_free_page (fbdev_get_free_page
          (fbdev_get_free_page fbdev).1).1).1).1.pages i).used = true) := by
  have hn1' := hn1
  have hn3' := hn3
  refine ⟨?_, fbdev_get_free_page_fallback fbdev, ?_, ?_, rfl, ?_⟩
  · rintro ⟨i, hi, hu⟩
    obtain ⟨h1, h2⟩ := free_page_loop_spec fbdev.pages fbdev.num_pages 0
    unfold fbdev_get_free_page
    dsimp only
    cases hs : free_page_loop fbdev.pages fbdev.num_pages 0 with
    | none =>
      have := h2 hs i (Nat.zero_le _) (by omega)
      rw [hu] at this
      cases this
    | some q =>
      dsimp only
      obtain ⟨_, hlt, hq, hqlow⟩ := h1 q hs
      exact ⟨by omega, hq, fun j hj => hqlow j (Nat.zero_le _) hj⟩
  · rw [fbdev_get_free_page_pages, Function.update_same]
  · intro j hj
    rw [fbdev_get_free_page_pages, Function.update_noteq hj]
  · intro h3 hfree
    have e1 : (fbdev_get_free_page fbdev).2 = 0 :=
      fbdev_get_free_page_lowest fbdev 0 (by rw [h3]; decide) (hfree 0)
        (fun j hj => absurd hj (Nat.not_lt_zero _))
    have p1 : (fbdev_get_free_page fbdev).1.pages =
        Function.update fbdev.pages 0 { fbdev.pages 0 with used := true, offset := 0 } := by
      rw [fbdev_get_free_page_pages, e1]
    have e2 : (fbdev_get_free_page (fbdev_get_free_page fbdev).1).2 = 1 := by
      apply fbdev_get_free_page_lowest
      · show (1 : Fin FBDEV_MAX_PAGES).val < fbdev.num_pages
        rw [h3]; decide
      · rw [p1, Function.update_noteq (by decide)]; exact hfree 1
      · intro j hj
        rw [p1, page_index_lt_one j hj, Function.update_same]
    have p2 : (fbdev_get_free_page (fbdev_get_free_page fbdev).1).1.pages =
        Function.update (fbdev_get_free_page fbdev).1.pages 1
          { (fbdev_get_free_page fbdev).1.pages 1 with used := true, offset := 0 } := by
      rw [fbdev_get_free_page_pages, e2]
    have e3 : (fbdev_get_free_page (fbdev_get_free_page (fbdev_get_free_page fbdev).1).1).2 = 2 := by
      apply fbdev_get_free_page_lowest
      · show (2 : Fin FBDEV_MAX_PAGES).val < fbdev.num_pages
        rw [h3]; decide
      · rw [p2, Function.update_noteq (by decide), p1, Function.update_noteq (by decide)]
        exact hfree 2
      · intro j hj
        rcases page_index_lt_two j hj with hj0 | hj1
        · rw [p2, hj0, Function.update_noteq (by decide), p1, Function.update_same]
        · rw [p2, hj1, Function.update_same]
    have p3 : (fbdev_get_free_page (fbdev_get_free_page (fbdev_get_free_page fbdev).1).1).1.pages =
        Function.update (fbdev_get_free_page (fbdev_get_free_page fbdev).1).1.pages 2
          { (fbdev_get_free_page (fbdev_get_free_page fbdev).1).1.pages 2 with
            used := true, offset := 0 } := by
      rw [fbdev_get_free_page_pages, e3]
    have u3 : ∀ i : Fin FBDEV_MAX_PAGES,
        ((fbdev_get_free_page (fbdev_get_free_page (fbdev_get_free_page fbdev).1).1).1.pages
          i).used = true := by
      intro i
      rw [p3]
      rcases page_index_cases i with hi | hi | hi
      · rw [hi, Function.update_noteq (by decide), p2, Function.update_noteq (by decide), p1,
          Function.update_same]
      · rw [hi, Function.update_noteq (by decide), p2, Function.update_same]
      · rw [hi, Function.update_same]
    have e4 : (fbdev_get_free_page (fbdev_get_free_page (fbdev_get_free_page
        (fbdev_get_free_page fbdev).1).1).1).2 = 0 :=
      fbdev_get_free_page_fallback _ (fun i _ => u3 i)
    refine ⟨e1, e2, e3, e4, ?_⟩
    intro i
    rw [fbdev_get_free_page_pages, e4]
    by_cases hi0 : i = 0
    · rw [hi0, Function.update_same]
    · rw [Function.update_noteq hi0]
      exact u3 i

/-- C5 (witness): the fresh 3-page pool. -/
theorem fbdev_get_free_page_spec_witness :
    (1 ≤ sample_pool.num_pages ∧ sample_pool.num_pages ≤ FBDEV_MAX_PAGES) ∧
    (fbdev_get_free_page sample_pool).2 = 0 ∧
    (fbdev_get_free_page (fbdev_get_free_page sample_pool).1).2 = 1 ∧
    (fbdev_get_free_page (fbdev_get_free_page (fbdev_get_free_page sample_pool).1).1).2 = 2 ∧
    (fbdev_get_free_page (fbdev_get_free_page (fbdev_get_free_page
      (fbdev_get_free_page sample_pool).1).1).1).2 = 0 :=
  ⟨⟨by decide, by decide⟩,
   match (fbdev_get_free_page_spec sample_pool (by decide) (by decide)).2.2.2.2.2
      rfl (by decide) with
   | ⟨e1, e2, e3, e4, _⟩ => ⟨e1, e2, e3, e4⟩⟩

/-! ## Properties of the page flip -/

/-- C7: `fbdev_page_flip` with no pending page returns the state it was given
(current page, pending page, used flags and pan offsets included) and issues no
pan request; the only request it may issue is the vsync wait. -/
theorem fbdev_page_flip_no_pending (fbdev : fbdev_video_t)
    (h : fbdev.pending_page = none) :
    fbdev_page_flip fbdev =
      flip_result.done fbdev (if fbdev.sync then [fb_ioctl.FBIO_WAITFORVSYNC] else []) ∧
    ∀ xoffset yoffset,
      fb_ioctl.FBIOPAN_DISPLAY xoffset yoffset ∉ (fbdev_page_flip fbdev).log := by
  have hflip : fbdev_page_flip fbdev =
      flip_result.done fbdev (if fbdev.sync then [fb_ioctl.FBIO_WAITFORVSYNC] else []) := by
    unfold fbdev_page_flip
    dsimp only
    rw [h]
    rfl
  refine ⟨hflip, ?_⟩
  intro x y
  rw [hflip]
  unfold flip_result.log
  dsimp only
  split <;> simp

/-- C7 (witness): the fresh 3-page pool has no pending page. -/
theorem fbdev_page_flip_no_pending_witness :
    sample_pool.pending_page = none ∧
    fbdev_page_flip sample_pool = flip_result.done sample_pool [] :=
  ⟨rfl, (fbdev_page_flip_no_pending sample_pool rfl).1⟩

/-- C8: after `fbdev_page_flip` with pending page `p` (and a non-zero row
pitch, so that the pan offsets exist) the current page is `p`, `p` is marked
used, no page is pending, the previously current page is marked not used when
it differs from `p`, and every other page is unchanged; `buf` and `offset` of
all pages are unchanged. -/
theorem fbdev_page_flip_pending (fbdev : fbdev_video_t) (p : Fin FBDEV_MAX_PAGES)
    (h : fbdev.pending_page = some p)
    (hpitch : fbdev.width * fbdev.bpp % UINT_MOD ≠ 0) :
    ∃ st log, fbdev_page_flip fbdev = flip_result.done st log ∧
      st.curr_page = some p ∧
      (st.pages p).used = true ∧
      st.pending_page = none ∧
      (∀ q, fbdev.curr_page = some q → q ≠ p → (st.pages q).used = false) ∧
      (∀ j, j ≠ p → fbdev.curr_page ≠ some j → st.pages j = fbdev.pages j) ∧
      (∀ j, (st.pages j).buf = (fbdev.pages j).buf ∧
        (st.pages j).offset = (fbdev.pages j).offset) ∧
      st.num_pages = fbdev.num_pages ∧ st.menu_page = fbdev.menu_page := by
  unfold fbdev_page_flip
  dsimp only
  rw [h]
  dsimp only
  rw [if_neg hpitch]
  cases hc : fbdev.curr_page with
  | none =>
    dsimp only
    refine ⟨_, _, rfl, rfl, ?_, rfl, ?_, ?_, ?_, rfl, rfl⟩
    · dsimp only
      rw [Function.update_same]
    · intro q hq; cases hq
    · intro j hj _
      dsimp only
      rw [Function.update_noteq hj]
    · intro j
      dsimp only
      by_cases hj : j = p
      · rw [hj, Function.update_same]; exact ⟨rfl, rfl⟩
      · rw [Function.update_noteq hj]; exact ⟨rfl, rfl⟩
  | some c =>
    dsimp only
    refine ⟨_, _, rfl, rfl, ?_, rfl, ?_, ?_, ?_, rfl, rfl⟩
    · dsimp only
      rw [Function.update_same]
    · intro q hq hqp
      injection hq with hq
      subst hq
      dsimp only
      rw [Function.update_noteq hqp, Function.update_same]
    · intro j hj hjc
      have hjc' : j ≠ c := fun e => hjc (by rw [e])
      dsimp only
      rw [Function.update_noteq hj, Function.update_noteq hjc']
    · intro j
      dsimp only
      by_cases hj : j = p
      · rw [hj, Function.update_same]
        by_cases hpc : p = c
        · rw [hpc, Function.update_same]; exact ⟨rfl, rfl⟩
        · rw [Function.update_noteq hpc]; exact ⟨rfl, rfl⟩
      · rw [Function.update_noteq hj]
        by_cases hjc : j = c
        · rw [hjc, Function.update_same]; exact ⟨rfl, rfl⟩
        · rw [Function.update_noteq hjc]; exact ⟨rfl, rfl⟩

/-- C8 (witness): the 3-page pool with page 0 current and page 1 pending, and
the single-page pool where page 0 is both. -/
theorem fbdev_page_flip_pending_witness :
    (sample_drawn.curr_page = some 0 ∧ sample_drawn.pending_page = some 1 ∧
      sample_drawn.width * sample_drawn.bpp % UINT_MOD ≠ 0 ∧
      ∃ st log, fbdev_page_flip sample_drawn = flip_result.done st log ∧
        st.curr_page = some 1 ∧ (st.pages 1).used = true ∧ st.pending_page = none ∧
        (st.pages 0).used = false) ∧
    (sample_single_drawn.curr_page = some 0 ∧ sample_single_drawn.pending_page = some 0 ∧
      ∃ st log, fbdev_page_flip sample_single_drawn = flip_result.done st log ∧
        st.curr_page = some 0 ∧ (st.pages 0).used = true) :=
  ⟨⟨rfl, rfl, by decide,
    match fbdev_page_flip_pending sample_drawn 1 rfl (by decide) with
    | ⟨st, log, h, hc, hu, hp, hq, _⟩ => ⟨st, log, h, hc, hu, hp, hq 0 rfl (by decide)⟩⟩,
   ⟨rfl, rfl,
    match fbdev_page_flip_pending sample_single_drawn 0 rfl (by decide) with
    | ⟨st, log, h, hc, hu, _⟩ => ⟨st, log, h, hc, hu⟩⟩⟩

/-- C9 (the code at the failing input): in the 640x540, 2 bytes-per-pixel
layout page 1 lies at byte 691200 and the row pitch is 1280, so the remainder
is 0; `fbdev_page_flip` pans to `yoffset = 540` but to `xoffset = 1024`, the
bitwise AND of 691200 and 1280. -/
theorem fbdev_page_flip_xoffset_is_bitwise_and :
    sample_drawn.pending_page = some 1 ∧
    (sample_drawn.pages 1).buf = 691200 ∧ (sample_drawn.pages 1).offset = 0 ∧
    sample_drawn.width * sample_drawn.bpp = 1280 ∧
    691200 / 1280 = 540 ∧ 691200 % 1280 = 0 ∧ 691200 &&& 1280 = 1024 ∧
    (fbdev_page_flip sample_drawn).log = [fb_ioctl.FBIOPAN_DISPLAY 1024 540] ∧
    ((fbdev_page_flip sample_drawn).state sample_drawn).vinfo.xoffset = 1024 ∧
    ((fbdev_page_flip sample_drawn).state sample_drawn).vinfo.yoffset = 540 := by
  refine ⟨rfl, rfl, rfl, rfl, rfl, rfl, by decide, ?_, ?_, ?_⟩ <;> decide

/-! ## Properties of the frame entry points -/

/-- C6 (the code at the failing input): from the fresh 3-page pool the menu
round trip (enable the menu, upload its texture, show a frame, disable the
menu) ends with page 0 current but marked not used, and the next
`fbdev_get_page` hands out that visible page; the same happens on a
single-page pool when a menu texture is uploaded after a frame and the menu is
disabled. -/
theorem curr_page_released_by_menu :
    sample_pool.curr_page = none ∧
    (∃ st, apply_calls sample_pool menu_round_trip = some st ∧
      st.curr_page = some 0 ∧ (st.pages 0).used = false ∧
      ¬ curr_page_used st ∧
      (fbdev_get_page st).2 = st.curr_page) ∧
    (∃ st, apply_calls sample_single_pool single_page_menu_upload = some st ∧
      st.curr_page = some 0 ∧ (st.pages 0).used = false ∧
      ¬ curr_page_used st) :=
  ⟨rfl,
   ⟨_, rfl, rfl, rfl, fun h => absurd (h 0 rfl) (by decide), rfl⟩,
   ⟨_, rfl, rfl, rfl, fun h => absurd (h 0 rfl) (by decide)⟩⟩

/-- The ladder as `fbdev_init` runs it never runs out of fuel. -/
theorem fbdev_init_ne_out_of_fuel (dev : fbdev_device) (fbdev : fbdev_video_t) :
    fbdev_init dev fbdev ≠ init_result.out_of_fuel := by
  unfold fbdev_init
  cases hget : dev.get_vscreeninfo with
  | none => simp
  | some vinfo =>
    dsimp only
    by_cases hz : vinfo.xres = 0 ∨ (fbdev_init_entry fbdev vinfo).bpp = 0
    · have htrap : fbdev_init_ladder dev fbdev.fbmem_size vinfo.xres vinfo.yres
          ((vinfo.bits_per_pixel + 7) % UINT_MOD / 8) LADDER_ROUNDS ladder_label.retry_auto
          (fbdev_init_entry fbdev vinfo) = ladder_result.trap := by
        simp [fbdev_init_ladder, hz]
      rw [htrap]
      simp
    · have hw : vinfo.xres ≠ 0 := fun e => hz (Or.inl e)
      have hb : (vinfo.bits_per_pixel + 7) % UINT_MOD / 8 ≠ 0 := fun e => hz (Or.inr e)
      obtain ⟨s1, hs1, _⟩ := ladder_auto_orig dev fbdev.fbmem_size vinfo.xres vinfo.yres
        ((vinfo.bits_per_pixel + 7) % UINT_MOD / 8) 0 (fbdev_init_entry fbdev vinfo) hw hb rfl
      rw [show LADDER_ROUNDS = 0 + 4 from rfl]
      rcases hs1 with h | h
      · rw [h]
        dsimp only
        unfold fbdev_init_finish
        dsimp only
        split_ifs <;> simp
      · rw [h]
        simp

/-- `fbdev_init` returns 0 or -1 whenever it returns. -/
theorem fbdev_init_code (dev : fbdev_device) (fbdev st : fbdev_video_t) (code : Int)
    (h : fbdev_init dev fbdev = init_result.ret code st) : code = 0 ∨ code = -1 := by
  unfold fbdev_init at h
  cases hget : dev.get_vscreeninfo with
  | none =>
    rw [hget] at h
    injection h with hc _
    exact Or.inr hc.symm
  | some vinfo =>
    rw [hget] at h
    dsimp only at h
    cases hl : fbdev_init_ladder dev fbdev.fbmem_size vinfo.xres vinfo.yres
        ((vinfo.bits_per_pixel + 7) % UINT_MOD / 8) LADDER_ROUNDS ladder_label.retry_auto
        (fbdev_init_entry fbdev vinfo) with
    | accepted s =>
      rw [hl] at h
      dsimp only at h
      unfold fbdev_init_finish at h
      dsimp only at h
      split_ifs at h
      all_goals first
        | (injection h with hc _; exact Or.inr hc.symm)
        | (injection h with hc _; exact Or.inl hc.symm)
    | failed s =>
      rw [hl] at h
      injection h with hc _
      exact Or.inr hc.symm
    | trap => rw [hl] at h; cases h
    | out_of_fuel => rw [hl] at h; cases h

/-- Once past the resolution check, `fbdev_gfx_frame` returns true unless the
menu is drawn without a dummy page or the page flip divides by a zero row
pitch. -/
theorem fbdev_gfx_frame_draw_result (fbdev : fbdev_video_t) (log : List fb_ioctl) :
    (∃ st l, fbdev_gfx_frame_draw fbdev log = frame_result.ret true st l) ∨
    fbdev_gfx_frame_draw fbdev log = frame_result.trap := by
  have hflip : ∀ fb : fbdev_video_t,
      (∃ st l, (match fbdev_page_flip fb with
        | flip_result.done fbdev l => frame_result.ret true fbdev (log ++ l)
        | flip_result.trap => frame_result.trap) = frame_result.ret true st l) ∨
      (match fbdev_page_flip fb with
        | flip_result.done fbdev l => frame_result.ret true fbdev (log ++ l)
        | flip_result.trap => frame_result.trap) = frame_result.trap := by
    intro fb
    cases fbdev_page_flip fb with
    | done st l => exact Or.inl ⟨_, _, rfl⟩
    | trap => exact Or.inr rfl
  unfold fbdev_gfx_frame_draw
  dsimp only
  split
  · exact Or.inr rfl
  · split
    · exact hflip _
    · split
      · exact Or.inl ⟨_, _, rfl⟩
      · exact hflip _

/-- With a non-zero row pitch the page flip always completes. -/
theorem fbdev_page_flip_done (fbdev : fbdev_video_t)
    (hpitch : fbdev.width * fbdev.bpp % UINT_MOD ≠ 0) :
    ∃ st log, fbdev_page_flip fbdev = flip_result.done st log := by
  unfold fbdev_page_flip
  dsimp only
  cases fbdev.pending_page with
  | none => exact ⟨_, _, rfl⟩
  | some p =>
    dsimp only
    rw [if_neg hpitch]
    exact ⟨_, _, rfl⟩

/-- A successful end of `fbdev_init` leaves the dummy page allocated. -/
theorem fbdev_init_finish_dummy_page (dev : fbdev_device) (fbdev : fbdev_video_t)
    (vinfo : fb_var_screeninfo) (page_height : Nat) (st : fbdev_video_t)
    (h : fbdev_init_finish dev fbdev vinfo page_height = init_result.ret 0 st) :
    st.dummy_page = true := by
  unfold fbdev_init_finish at h
  dsimp only at h
  split_ifs at h
  all_goals first
    | (injection h with hc _; exact absurd hc (by decide))
    | (injection h with _ hst
       subst hst
       rfl)

/-- A successful `fbdev_init` leaves the dummy page allocated. -/
theorem fbdev_init_dummy_page (dev : fbdev_device) (fbdev st : fbdev_video_t)
    (h : fbdev_init dev fbdev = init_result.ret 0 st) : st.dummy_page = true := by
  obtain ⟨vinfo, s, _, _, hfin⟩ := fbdev_init_ok dev fbdev st h
  exact fbdev_init_finish_dummy_page dev _ _ _ st hfin

/-- With the menu active and no dummy page, the drawing steps of
`fbdev_gfx_frame` end at the load of `fbdev->dummy_page->buf`. -/
theorem fbdev_gfx_frame_draw_no_dummy_page (fbdev : fbdev_video_t) (log : List fb_ioctl)
    (hmenu : fbdev.menu_active = true) (hdummy : fbdev.dummy_page = false) :
    fbdev_gfx_frame_draw fbdev log = frame_result.trap := by
  unfold fbdev_gfx_frame_draw
  rw [hmenu, hdummy]
  rfl

/-- Once past the resolution check, `fbdev_gfx_frame` returns true when the
row pitch is not zero and the dummy page is allocated or the menu is not
active. -/
theorem fbdev_gfx_frame_draw_true (fbdev : fbdev_video_t) (log : List fb_ioctl)
    (hpitch : fbdev.width * fbdev.bpp % UINT_MOD ≠ 0)
    (hdummy : fbdev.menu_active = false ∨ fbdev.dummy_page = true) :
    ∃ st l, fbdev_gfx_frame_draw fbdev log = frame_result.ret true st l := by
  have hnull : ¬ ((fbdev.menu_active && !fbdev.dummy_page) = true) := by
    rcases hdummy with h | h <;> simp [h]
  have hflip : ∀ fb : fbdev_video_t, fb.width * fb.bpp % UINT_MOD ≠ 0 →
      ∃ st l, (match fbdev_page_flip fb with
        | flip_result.done fbdev l => frame_result.ret true fbdev (log ++ l)
        | flip_result.trap => frame_result.trap) = frame_result.ret true st l := by
    intro fb hfb
    obtain ⟨st, l, h⟩ := fbdev_page_flip_done fb hfb
    rw [h]
    exact ⟨_, _, rfl⟩
  unfold fbdev_gfx_frame_draw
  rw [if_neg hnull]
  dsimp only
  split
  · apply hflip
    split
    · split <;> exact hpitch
    · exact hpitch
  · split
    · exact ⟨_, _, rfl⟩
    · apply hflip
      split
      · split <;> exact hpitch
      · exact hpitch

/-- The return values of `fbdev_gfx_frame`.  It returns false exactly when it
re-negotiates the mode (there is something to draw and the frame's width or
height differs from the stored video size) and that `fbdev_init` returns -1.
With nothing to draw it returns true and leaves the state alone.  In the
remaining cases it returns true provided that the row pitch it pans with is
not zero and, when no re-negotiation takes place, that the dummy page is
allocated or the menu is not active (after a successful re-negotiation the
dummy page is allocated).  A call ends with false, with true, or without
returning. -/
theorem fbdev_gfx_frame_false_iff (dev : fbdev_device) (fbdev : fbdev_video_t)
    (frame : Bool) (width height : Nat) :
    ((∃ st log, fbdev_gfx_frame dev fbdev frame width height = frame_result.ret false st log) ↔
      ((fbdev.menu_active = true ∨ frame = true) ∧
        (width ≠ fbdev.video_width ∨ height ≠ fbdev.video_height) ∧
        ∃ st, fbdev_init dev (fbdev_gfx_frame_resize fbdev width height) =
          init_result.ret (-1) st)) ∧
    (fbdev.menu_active = false → frame = false →
      fbdev_gfx_frame dev fbdev frame width height = frame_result.ret true fbdev []) ∧
    (width = fbdev.video_width → height = fbdev.video_height →
      fbdev.width * fbdev.bpp % UINT_MOD ≠ 0 →
      (fbdev.menu_active = false ∨ fbdev.dummy_page = true) →
      ∃ st log, fbdev_gfx_frame dev fbdev frame width height = frame_result.ret true st log) ∧
    (width ≠ fbdev.video_width ∨ height ≠ fbdev.video_height →
      ∀ st0, fbdev_init dev (fbdev_gfx_frame_resize fbdev width height) =
        init_result.ret 0 st0 →
      st0.width * st0.bpp % UINT_MOD ≠ 0 →
      ∃ st log, fbdev_gfx_frame dev fbdev frame width height = frame_result.ret true st log) ∧
    fbdev_gfx_frame dev fbdev frame width height ≠ frame_result.out_of_fuel ∧
    ((∃ st log, fbdev_gfx_frame dev fbdev frame width height = frame_result.ret false st log) ∨
      (∃ st log, fbdev_gfx_frame dev fbdev frame width height = frame_result.ret true st log) ∨
      fbdev_gfx_frame dev fbdev frame width height = frame_result.trap) := by
  by_cases h1 : (!fbdev.menu_active && !frame) = true
  · -- nothing to draw
    have hr : fbdev_gfx_frame dev fbdev frame width height = frame_result.ret true fbdev [] := by
      unfold fbdev_gfx_frame
      rw [if_pos h1]
    have hm : fbdev.menu_active = false ∧ frame = false := by
      simpa using h1
    refine ⟨⟨?_, ?_⟩, fun _ _ => hr, fun _ _ _ _ => ⟨_, _, hr⟩, fun _ _ _ _ => ⟨_, _, hr⟩, ?_,
      Or.inr (Or.inl ⟨_, _, hr⟩)⟩
    · rintro ⟨st, log, h⟩
      rw [hr] at h
      injection h with hv _
      cases hv
    · rintro ⟨hmf, _⟩
      rcases hmf with h | h
      · rw [hm.1] at h; cases h
      · rw [hm.2] at h; cases h
    · rw [hr]; simp
  · have hm : fbdev.menu_active = true ∨ frame = true := by
      cases hma : fbdev.menu_active <;> cases hf : frame <;> simp [hma, hf] at h1 ⊢
    have hnm : ¬ (fbdev.menu_active = false ∧ frame = false) := by
      rintro ⟨a, b⟩
      rcases hm with h | h
      · rw [a] at h; cases h
      · rw [b] at h; cases h
    by_cases h2 : width ≠ fbdev.video_width ∨ height ≠ fbdev.video_height
    · -- mode set (resolution changed by core)
      have hunf : fbdev_gfx_frame dev fbdev frame width height =
          (match fbdev_init dev (fbdev_gfx_frame_resize fbdev width height) with
            | init_result.trap => frame_result.trap
            | init_result.out_of_fuel => frame_result.out_of_fuel
            | init_result.ret code fbdev =>
              if code < 0 then frame_result.ret false fbdev fbdev_wait_vsync
              else fbdev_gfx_frame_draw fbdev fbdev_wait_vsync) := by
        unfold fbdev_gfx_frame
        rw [if_neg h1, if_pos h2]
      have hsame : ¬ (width = fbdev.video_width ∧ height = fbdev.video_height) := by
        rintro ⟨a, b⟩
        rcases h2 with h | h
        · exact h a
        · exact h b
      cases hinit : fbdev_init dev (fbdev_gfx_frame_resize fbdev width height) with
      | trap =>
        rw [hinit] at hunf
        refine ⟨⟨?_, ?_⟩, fun a b => absurd ⟨a, b⟩ hnm, fun a b _ _ => absurd ⟨a, b⟩ hsame,
          fun _ _ h => (by cases h), (by rw [hunf]; simp), Or.inr (Or.inr hunf)⟩
        · rintro ⟨st, log, h⟩
          rw [hunf] at h
          cases h
        · rintro ⟨_, _, st, h⟩
          cases h
      | out_of_fuel => exact absurd hinit (fbdev_init_ne_out_of_fuel dev _)
      | ret code st1 =>
        rw [hinit] at hunf
        dsimp only at hunf
        rcases fbdev_init_code dev _ st1 code hinit with hc | hc
        · subst hc
          rw [if_neg (by decide)] at hunf
          refine ⟨⟨?_, ?_⟩, fun a b => absurd ⟨a, b⟩ hnm, fun a b _ _ => absurd ⟨a, b⟩ hsame,
            ?_, ?_, ?_⟩
          · rintro ⟨st, log, h⟩
            rw [hunf] at h
            rcases fbdev_gfx_frame_draw_result st1 fbdev_wait_vsync with ⟨st', l', h'⟩ | h'
            · rw [h'] at h
              injection h with hv _
              cases hv
            · rw [h'] at h
              cases h
          · rintro ⟨_, _, st, h⟩
            injection h with hc _
            exact absurd hc (by decide)
          · intro _ st0 h0 hp
            injection h0 with _ hst
            subst hst
            rw [hunf]
            exact fbdev_gfx_frame_draw_true st1 _ hp
              (Or.inr (fbdev_init_dummy_page dev _ st1 hinit))
          · rw [hunf]
            rcases fbdev_gfx_frame_draw_result st1 fbdev_wait_vsync with ⟨st', l', h'⟩ | h' <;>
              rw [h'] <;> simp
          · rw [hunf]
            rcases fbdev_gfx_frame_draw_result st1 fbdev_wait_vsync with ⟨st', l', h'⟩ | h'
            · exact Or.inr (Or.inl ⟨_, _, h'⟩)
            · exact Or.inr (Or.inr h')
        · subst hc
          rw [if_pos (by decide)] at hunf
          refine ⟨⟨fun _ => ⟨hm, h2, st1, rfl⟩, fun _ => ⟨_, _, hunf⟩⟩,
            fun a b => absurd ⟨a, b⟩ hnm, fun a b _ _ => absurd ⟨a, b⟩ hsame, ?_,
            (by rw [hunf]; simp), Or.inl ⟨_, _, hunf⟩⟩
          intro _ st0 h0
          injection h0 with hc _
          exact absurd hc (by decide)
    · have hunf : fbdev_gfx_frame dev fbdev frame width height =
          fbdev_gfx_frame_draw fbdev [] := by
        unfold fbdev_gfx_frame
        rw [if_neg h1, if_neg h2]
      refine ⟨⟨?_, ?_⟩, fun a b => absurd ⟨a, b⟩ hnm, ?_, ?_, ?_, ?_⟩
      · rintro ⟨st, log, h⟩
        rw [hunf] at h
        rcases fbdev_gfx_frame_draw_result fbdev [] with ⟨st', l', h'⟩ | h'
        · rw [h'] at h
          injection h with hv _
          cases hv
        · rw [h'] at h
          cases h
      · rintro ⟨_, hdiff, _⟩
        exact absurd hdiff h2
      · intro _ _ hp hd
        rw [hunf]
        exact fbdev_gfx_frame_draw_true fbdev _ hp hd
      · intro hdiff
        exact absurd hdiff h2
      · rw [hunf]
        rcases fbdev_gfx_frame_draw_result fbdev [] with ⟨st', l', h'⟩ | h' <;>
          rw [h'] <;> simp
      · rw [hunf]
        rcases fbdev_gfx_frame_draw_result fbdev [] with ⟨st', l', h'⟩ | h'
        · exact Or.inr (Or.inl ⟨_, _, h'⟩)
        · exact Or.inr (Or.inr h')

/-- The return values of `fbdev_gfx_frame` on the 3-page pool: a resolution
change answered by a device that rejects every mode returns false; nothing to
draw returns true; a frame of the stored size returns true. -/
theorem fbdev_gfx_frame_false_iff_witness :
    (∃ st log, fbdev_gfx_frame (dev_reject_all (sample_vinfo 640 480 16)) sample_pool true
      320 240 = frame_result.ret false st log) ∧
    fbdev_gfx_frame (dev_reject_all (sample_vinfo 640 480 16)) sample_pool false 320 240 =
      frame_result.ret true sample_pool [] ∧
    (∃ st log, fbdev_gfx_frame (dev_accept_all (sample_vinfo 640 480 16)) sample_pool true
      640 480 = frame_result.ret true st log) :=
  ⟨(fbdev_gfx_frame_false_iff (dev_reject_all (sample_vinfo 640 480 16)) sample_pool true
      320 240).1.2 ⟨Or.inr rfl, Or.inl (by decide), _, rfl⟩,
   (fbdev_gfx_frame_false_iff (dev_reject_all (sample_vinfo 640 480 16)) sample_pool false
      320 240).2.1 rfl rfl,
   (fbdev_gfx_frame_false_iff (dev_accept_all (sample_vinfo 640 480 16)) sample_pool true
      640 480).2.2.1 rfl rfl (by decide) (Or.inl rfl)⟩

/-- C10 (the code at the failing input): on the 3-page pool with the menu
enabled, a 320x240 frame arrives while the device rejects every mode, so
`fbdev_gfx_frame` returns false; the state it leaves has the menu active, no
dummy page and 4 bytes per pixel, and already stores 320x240 as the video
size.  The next 320x240 call attempts no re-negotiation (the sizes are equal),
goes to the drawing steps and ends at the load of `fbdev->dummy_page->buf`
(line 561): it returns neither true nor false, with or without a source
frame, also with a device that would accept.  The same menu frame on the pool
as `fbdev_init` left it returns true. -/
theorem fbdev_gfx_frame_menu_after_failed_resize :
    (∃ log, fbdev_gfx_frame (dev_reject_all (sample_vinfo 640 480 16))
      (fbdev_gfx_set_texture_enable sample_pool true) true 320 240 =
        frame_result.ret false sample_failed_resize_menu log) ∧
    sample_failed_resize_menu.menu_active = true ∧
    sample_failed_resize_menu.dummy_page = false ∧
    sample_failed_resize_menu.bpp = 4 ∧
    sample_failed_resize_menu.video_width = 320 ∧
    sample_failed_resize_menu.video_height = 240 ∧
    fbdev_gfx_frame (dev_accept_all (sample_vinfo 640 480 16)) sample_failed_resize_menu true
      320 240 = fbdev_gfx_frame_draw sample_failed_resize_menu [] ∧
    fbdev_gfx_frame (dev_accept_all (sample_vinfo 640 480 16)) sample_failed_resize_menu true
      320 240 = frame_result.trap ∧
    fbdev_gfx_frame (dev_accept_all (sample_vinfo 640 480 16)) sample_failed_resize_menu false
      320 240 = frame_result.trap ∧
    (¬ ∃ st log, fbdev_gfx_frame (dev_accept_all (sample_vinfo 640 480 16))
      sample_failed_resize_menu true 320 240 = frame_result.ret true st log) ∧
    (¬ ∃ st log, fbdev_gfx_frame (dev_accept_all (sample_vinfo 640 480 16))
      sample_failed_resize_menu true 320 240 = frame_result.ret false st log) ∧
    (∃ st log, fbdev_gfx_frame (dev_accept_all (sample_vinfo 640 480 16))
      (fbdev_gfx_set_texture_enable sample_pool true) true 640 480 =
        frame_result.ret true st log) := by
  have htrap : fbdev_gfx_frame (dev_accept_all (sample_vinfo 640 480 16))
      sample_failed_resize_menu true 320 240 = frame_result.trap := rfl
  refine ⟨⟨_, rfl⟩, rfl, rfl, rfl, rfl, rfl, rfl, htrap, rfl, ?_, ?_, ⟨_, _, rfl⟩⟩
  · rintro ⟨st, log, h⟩
    rw [htrap] at h
    cases h
  · rintro ⟨st, log, h⟩
    rw [htrap] at h
    cases h

/-! ## Further properties of mode negotiation -/

/-- The first loop of `fbdev_init`, for any start count `n`: the count found is
the largest one in `n .. 1` whose page height reaches `height`, with that page
height; when there is none the count is 0 and the page height is the last one
computed. -/
theorem page_height_loop_spec (yres_virtual height : Nat) :
    ∀ (n p0 : Nat),
      (page_height_loop yres_virtual height n p0).1 ≤ n ∧
      ((page_height_loop yres_virtual height n p0).1 ≠ 0 →
        (page_height_loop yres_virtual height n p0).2 =
          yres_virtual / (page_height_loop yres_virtual height n p0).1 ∧
        height ≤ yres_virtual / (page_height_loop yres_virtual height n p0).1 ∧
        ∀ j, (page_height_loop yres_virtual height n p0).1 < j → j ≤ n →
          yres_virtual / j < height) ∧
      ((page_height_loop yres_virtual height n p0).1 = 0 →
        (n ≠ 0 → (page_height_loop yres_virtual height n p0).2 = yres_virtual) ∧
        ∀ j, 1 ≤ j → j ≤ n → yres_virtual / j < height) := by
  intro n
  induction n with
  | zero =>
    intro p0
    refine ⟨le_refl _, fun h => absurd rfl h, fun _ => ⟨fun h => absurd rfl h, ?_⟩⟩
    intro j h1 h2
    omega
  | succ n ih =>
    intro p0
    unfold page_height_loop
    dsimp only
    by_cases hge : yres_virtual / (n + 1) ≥ height
    · rw [if_pos hge]
      refine ⟨le_refl _, fun _ => ⟨rfl, hge, ?_⟩, fun h => absurd h (Nat.succ_ne_zero n)⟩
      intro j h1 h2
      simp only at h1
      omega
    · rw [if_neg hge]
      obtain ⟨h1, h2, h3⟩ := ih (yres_virtual / (n + 1))
      refine ⟨Nat.le_succ_of_le h1, ?_, ?_⟩
      · intro hne
        obtain ⟨a, b, c⟩ := h2 hne
        refine ⟨a, b, ?_⟩
        intro j hj1 hj2
        by_cases hj : j = n + 1
        · rw [hj]; omega
        · exact c j hj1 (by omega)
      · intro h0
        obtain ⟨a, b⟩ := h3 h0
        refine ⟨fun _ => ?_, ?_⟩
        · by_cases hn : n = 0
          · subst hn
            simp [page_height_loop]
          · exact a hn
        · intro j hj1 hj2
          by_cases hj : j = n + 1
          · rw [hj]; omega
          · exact b j hj1 (by omega)

/-- C17: in `fbdev_init` the pass through `retry_auto` sets
`virtual_height = fbmem_size / width / bpp` and the page height of the first
loop; that loop leaves `page_height = virtual_height / k` for the largest `k`
in `FBDEV_MAX_PAGES .. 1` with `virtual_height / k >= height`, and
`page_height = virtual_height` (with `k = 0`) when no such `k` exists.  For
`fbmem_size` 2,073,600, width 640, height 480, bpp 2: virtual height 1620,
`k = 3`, page height 540. -/
theorem fbdev_init_page_height_choice (dev : fbdev_device)
    (fbmem_size width height bpp fuel : Nat) (s : ladder_state)
    (hw : width ≠ 0) (hb : s.bpp ≠ 0) :
    fbdev_init_ladder dev fbmem_size width height bpp (fuel + 1) ladder_label.retry_auto s =
      fbdev_init_ladder dev fbmem_size width height bpp (fuel + 1) ladder_label.retry_fixed
        { s with
          vinfo := { s.vinfo with yres_virtual := fbmem_size / width / s.bpp }
          page_height :=
            (page_height_loop (fbmem_size / width / s.bpp) height FBDEV_MAX_PAGES
              s.page_height).2 } ∧
    (∀ virtual_height k page_height,
      page_height_loop virtual_height height FBDEV_MAX_PAGES s.page_height = (k, page_height) →
      k ≤ FBDEV_MAX_PAGES ∧
      (k ≠ 0 → page_height = virtual_height / k ∧ height ≤ virtual_height / k ∧
        ∀ j, k < j → j ≤ FBDEV_MAX_PAGES → virtual_height / j < height) ∧
      (k = 0 → page_height = virtual_height ∧
        ∀ j, 1 ≤ j → j ≤ FBDEV_MAX_PAGES → virtual_height / j < height)) ∧
    2073600 / 640 / 2 = 1620 ∧
    page_height_loop 1620 480 FBDEV_MAX_PAGES s.page_height = (3, 540) := by
  refine ⟨fbdev_init_ladder_auto dev fbmem_size width height bpp fuel s hw hb, ?_, rfl, rfl⟩
  intro vh k ph hk
  obtain ⟨h1, h2, h3⟩ := page_height_loop_spec vh height FBDEV_MAX_PAGES s.page_height
  rw [hk] at h1 h2 h3
  exact ⟨h1, h2, fun h0 => ⟨(h3 h0).1 (by decide), (h3 h0).2⟩⟩

/-- C17 (witness): the entry state of `fbdev_init` on the 2,073,600-byte
surface of a 640x480, 16-bit device. -/
theorem fbdev_init_page_height_choice_witness :
    (640 ≠ 0 ∧
      (fbdev_init_entry (sample_fbdev 2073600 640 480 2) (sample_vinfo 640 480 16)).bpp ≠ 0) ∧
    page_height_loop 1620 480 FBDEV_MAX_PAGES 0 = (3, 540) ∧
    (3 ≠ 0 → 540 = 1620 / 3 ∧ 480 ≤ 1620 / 3 ∧
      ∀ j, 3 < j → j ≤ FBDEV_MAX_PAGES → 1620 / j < 480) :=
  ⟨⟨by decide, by decide⟩,
   (fbdev_init_page_height_choice (dev_accept_all (sample_vinfo 640 480 16)) 2073600 640 480 2 3
      (fbdev_init_entry (sample_fbdev 2073600 640 480 2) (sample_vinfo 640 480 16))
      (by decide) (by decide)).2.2.2,
   ((fbdev_init_page_height_choice (dev_accept_all (sample_vinfo 640 480 16)) 2073600 640 480 2 3
      (fbdev_init_entry (sample_fbdev 2073600 640 480 2) (sample_vinfo 640 480 16))
      (by decide) (by decide)).2.1 1620 3 540 rfl).2.1⟩

/-- C18 (the code at the failing input): 3,686,400-byte surface, 640x480,
2 bytes per pixel.  The first pass offers 3 and 2 pages of 960 rows at 16 bits,
the second pass 3, 2 and 1 pages of 480 rows at 32 bits, and the ladder gives up
there: no request has 16 bits and 480, 960 or 1440 rows.  A device that
supports exactly such a mode (16 bits, at most 1440 rows) makes `fbdev_init`
return -1 although it would accept the last-resort candidate. -/
theorem fbdev_init_gives_up_before_last_resort :
    (fbdev_init_ladder (dev_reject_all (sample_vinfo 640 480 16)) 3686400 640 480 2
        LADDER_ROUNDS ladder_label.retry_auto
        (fbdev_init_entry (sample_fbdev 3686400 640 480 2) (sample_vinfo 640 480 16))).requests =
      [(2880, 16), (1920, 16), (1440, 32), (960, 32), (480, 32)] ∧
    (∃ s, fbdev_init_ladder (dev_reject_all (sample_vinfo 640 480 16)) 3686400 640 480 2
        LADDER_ROUNDS ladder_label.retry_auto
        (fbdev_init_entry (sample_fbdev 3686400 640 480 2) (sample_vinfo 640 480 16)) =
      ladder_result.failed s) ∧
    ¬ offered_fixed_height
      [(2880, 16), (1920, 16), (1440, 32), (960, 32), (480, 32)] 2 480 ∧
    (∃ st, fbdev_init (dev_reject_all (sample_vinfo 640 480 16))
      (sample_fbdev 3686400 640 480 2) = init_result.ret (-1) st) ∧
    (∃ st, fbdev_init (dev_sixteen_bit_1440 (sample_vinfo 640 480 16))
      (sample_fbdev 3686400 640 480 2) = init_result.ret (-1) st) ∧
    (∀ n, (dev_sixteen_bit_1440 (sample_vinfo 640 480 16)).put_vscreeninfo n
        { sample_vinfo 640 480 16 with yres_virtual := 3 * 480 } =
      some { sample_vinfo 640 480 16 with yres_virtual := 3 * 480 }) :=
  ⟨rfl, ⟨_, rfl⟩, by decide, ⟨_, rfl⟩, ⟨_, rfl⟩, fun _ => rfl⟩

/-- C11 (the code at the failing input): on the 3-page pool a 320x240 frame
arrives while the device rejects every mode, so `fbdev_gfx_frame` returns
false; the state it leaves has no dummy page, zero pages and 4 bytes per pixel
although the device is still in its 16-bit mode, but already stores 320x240 as
the video size.  The next 320x240 frame therefore skips `fbdev_init` (even with
a device that would accept) and goes straight to the drawing steps, returning
true with the dummy page still unallocated. -/
theorem fbdev_gfx_frame_draws_after_failed_resize :
    (∃ log, fbdev_gfx_frame (dev_reject_all (sample_vinfo 640 480 16)) sample_pool true
      320 240 = frame_result.ret false sample_failed_resize log) ∧
    sample_failed_resize.dummy_page = false ∧
    sample_failed_resize.num_pages = 0 ∧
    sample_failed_resize.bpp = 4 ∧
    sample_failed_resize.vinfo.bits_per_pixel = 16 ∧
    sample_failed_resize.video_width = 320 ∧ sample_failed_resize.video_height = 240 ∧
    fbdev_gfx_frame (dev_accept_all (sample_vinfo 640 480 16)) sample_failed_resize true
      320 240 = fbdev_gfx_frame_draw sample_failed_resize [] ∧
    (∃ st log, fbdev_gfx_frame (dev_accept_all (sample_vinfo 640 480 16))
        sample_failed_resize true 320 240 = frame_result.ret true st log ∧
      st.dummy_page = false ∧ st.num_pages = 0 ∧
      log = [fb_ioctl.FBIOPAN_DISPLAY 0 0]) ∧
    (∃ st, fbdev_init (dev_accept_all (sample_vinfo 640 480 16))
        (fbdev_gfx_frame_resize sample_failed_resize 320 240) = init_result.ret 0 st ∧
      st.dummy_page = true ∧ st.num_pages = 3 ∧ st.bpp = 2) :=
  ⟨⟨_, rfl⟩, rfl, rfl, rfl, rfl, rfl, rfl, rfl, ⟨_, _, rfl, rfl, rfl, rfl⟩,
   ⟨_, rfl, rfl, rfl, rfl⟩⟩

/-! ## Properties of text rendering -/

/-- C14: `fbdev_blend_pixel` with blend weight 0 returns the destination pixel
unchanged for every bytes-per-pixel, and with blend weight 255 on a 4-byte
pixel it stores `0xFF000000 | r << 16 | g << 8 | b` for all 8-bit `r`, `g`,
`b`, whatever the pixel held. -/
theorem fbdev_blend_pixel_extremes (cv : pixconv) (dst r g b : Nat)
    (hr : r < 256) (hg : g < 256) (hb : b < 256) :
    (∀ bpp r1 g1 b1, fbdev_blend_pixel cv 0 dst bpp r1 g1 b1 = dst) ∧
    fbdev_blend_pixel cv 255 dst 4 r g b = 0xFF000000 ||| r <<< 16 ||| g <<< 8 ||| b := by
  constructor
  · intro bpp r1 g1 b1
    unfold fbdev_blend_pixel
    rw [if_pos rfl]
  · unfold fbdev_blend_pixel
    rw [if_neg (by decide), if_neg (by decide), if_pos rfl, if_pos rfl]
    unfold FBDEV_COLOR_ARGB
    have h1 : (0xff <<< 24) % UINT_MOD = 0xFF000000 := by decide
    have h2 : (r <<< 16) % UINT_MOD = r <<< 16 := by
      apply Nat.mod_eq_of_lt
      rw [Nat.shiftLeft_eq]
      show r * 65536 < 4294967296
      omega
    have h3 : (g <<< 8) % UINT_MOD = g <<< 8 := by
      apply Nat.mod_eq_of_lt
      rw [Nat.shiftLeft_eq]
      show g * 256 < 4294967296
      omega
    have h4 : (b <<< 0) % UINT_MOD = b := by
      rw [Nat.shiftLeft_zero]
      apply Nat.mod_eq_of_lt
      show b < 4294967296
      omega
    rw [h1, h2, h3, h4]

/-- C14 (witness): orange (255, 128, 0) over a pixel that held `0x12345678`. -/
theorem fbdev_blend_pixel_extremes_witness :
    (255 < 256 ∧ 128 < 256 ∧ 0 < 256) ∧
    fbdev_blend_pixel sample_pixconv 0 0x12345678 2 255 128 0 = 0x12345678 ∧
    fbdev_blend_pixel sample_pixconv 255 0x12345678 4 255 128 0 = 0xFFFF8000 :=
  ⟨⟨by decide, by decide, by decide⟩,
   (fbdev_blend_pixel_extremes sample_pixconv 0x12345678 255 128 0
      (by decide) (by decide) (by decide)).1 2 255 128 0,
   (fbdev_blend_pixel_extremes sample_pixconv 0x12345678 255 128 0
      (by decide) (by decide) (by decide)).2⟩

/-- The inner loop of `fbdev_blend_glyph` leaves the pixels before its first
pixel alone. -/
theorem fbdev_blend_glyph_row_below (cv : pixconv) (bpp color : Nat) (src : Nat → Nat)
    (src_base dst_base : Nat) (pixels : Nat → Nat) (k : Nat) (hk : k < dst_base) :
    ∀ n, fbdev_blend_glyph_row cv bpp color src src_base dst_base pixels n k = pixels k := by
  intro n
  induction n with
  | zero => rfl
  | succ j ih =>
    unfold fbdev_blend_glyph_row
    dsimp only
    rw [Function.update_noteq (by omega), ih]

/-- The inner loop of `fbdev_blend_glyph` blends its first pixel once, with the
first coverage byte. -/
theorem fbdev_blend_glyph_row_first (cv : pixconv) (bpp color : Nat) (src : Nat → Nat)
    (src_base dst_base : Nat) (pixels : Nat → Nat) :
    ∀ n, fbdev_blend_glyph_row cv bpp color src src_base dst_base pixels (n + 1) dst_base =
      fbdev_blend_pixel cv (src src_base) (pixels dst_base) bpp
        (FONT_COLOR_GET_RED color) (FONT_COLOR_GET_GREEN color) (FONT_COLOR_GET_BLUE color) := by
  intro n
  induction n with
  | zero =>
    unfold fbdev_blend_glyph_row
    dsimp only
    rw [Nat.add_zero, Nat.add_zero, Function.update_same]
    rfl
  | succ j ih =>
    unfold fbdev_blend_glyph_row
    dsimp only
    rw [Function.update_noteq (by omega)]
    exact ih

/-- Whatever its width and height, `fbdev_blend_glyph` blends the pixel at
`(x, y)` exactly once, with the coverage byte that `src` points at. -/
theorem fbdev_blend_glyph_rows_first (cv : pixconv) (fb_width bpp color : Nat)
    (src : Nat → Nat) (src_base dst_base width : Nat) (pixels : Nat → Nat)
    (hfb : 0 < fb_width) (hw : 0 < width) :
    ∀ n, fbdev_blend_glyph_rows cv fb_width bpp color src src_base dst_base width pixels (n + 1)
        dst_base =
      fbdev_blend_pixel cv (src src_base) (pixels dst_base) bpp
        (FONT_COLOR_GET_RED color) (FONT_COLOR_GET_GREEN color) (FONT_COLOR_GET_BLUE color) := by
  obtain ⟨w, rfl⟩ : ∃ w, width = w + 1 := ⟨width - 1, by omega⟩
  intro n
  induction n with
  | zero =>
    unfold fbdev_blend_glyph_rows
    rw [Nat.zero_mul, Nat.zero_mul, Nat.add_zero, Nat.add_zero, fbdev_blend_glyph_row_first]
    rfl
  | succ i ih =>
    unfold fbdev_blend_glyph_rows
    rw [fbdev_blend_glyph_row_below cv bpp color src _ _ _ dst_base
      (by
        have : 0 < (i + 1) * fb_width := Nat.mul_pos (Nat.succ_pos i) hfb
        omega)]
    exact ih

/-- C12 (the code at the failing input): an 8x8 glyph drawn at `x = -10` on a
640x480 page lies entirely left of the page (`-10 + 8 <= 0`); line 242 makes
`glyph_width = -2`, which reaches `fbdev_blend_glyph` as the `unsigned`
4294967294 with `src` 10 bytes into the buffer.  Pixel (0, 0) of the black
page is then blended with coverage byte 10 of the glyph and becomes white, and
the columns run far past the 640 of the page. -/
theorem glyph_left_of_page_is_drawn :
    (-10 : Int) + 8 ≤ 0 ∧
    glyph_clip 640 480 solid_atlas sample_glyph 1 (-10) 0 =
      some { src_base := 10, width := 4294967294, height := 8, x := 0, y := 0 } ∧
    640 < 4294967294 ∧
    glyph_scale_buffer solid_atlas sample_glyph 1 zero_heap 10 = 255 ∧
    black_pixels 0 = 0 ∧
    (fbdev_gfx_draw_text_step sample_pixconv 640 480 4 (fun _ => some sample_glyph) solid_atlas
      zero_heap 1 0xFFFFFFFF (pen_at (-10) 0) 65).pixels 0 = 0xFFFFFFFF := by
  have hclip : glyph_clip 640 480 solid_atlas sample_glyph 1 (-10) 0 =
      some { src_base := 10, width := 4294967294, height := 8, x := 0, y := 0 } := by
    decide
  have hbuf : glyph_scale_buffer solid_atlas sample_glyph 1 zero_heap 10 = 255 := by
    decide
  refine ⟨by decide, hclip, by decide, hbuf, rfl, ?_⟩
  unfold fbdev_gfx_draw_text_step lookup_glyph pen_at
  dsimp only
  rw [hclip]
  dsimp only
  unfold fbdev_blend_glyph
  rw [show (0 * 640 + 0) % UINT_MOD = 0 from rfl, show (8 : Nat) = 7 + 1 from rfl,
    fbdev_blend_glyph_rows_first sample_pixconv 640 4 0xFFFFFFFF _ 10 0 4294967294 black_pixels
      (by decide) (by decide) 7,
    hbuf]
  decide

/-- C13 (the code at the failing input): an 8x8 glyph whose coverage byte in
column `c`, row `r` is `16 * r + c`, on a black 640x480 page of 4-byte pixels.
Clipped at the left (`x = -2`), pixel (0, 11) gets the coverage of glyph pixel
(0, 1) instead of (2, 1); clipped at the right (`x = 636`), pixel (636, 11)
gets that of (4, 0) instead of (0, 1); clipped at the top (`y = -2`), pixel
(10, 0) gets that of (0, 4) instead of (0, 2).  Clipped at the bottom only,
pixel (10, 477) gets that of (0, 1), as it should. -/
theorem clipped_glyph_reads_wrong_coverage :
    ((fbdev_gfx_draw_text_step sample_pixconv 640 480 4 sample_get_glyph sample_atlas zero_heap
        1 0xFFFFFFFF (pen_at (-2) 10) 65).pixels (11 * 640 + 0) =
        fbdev_blend_pixel sample_pixconv (glyph_coverage sample_atlas sample_glyph 0 1) 0 4
          255 255 255 ∧
      (fbdev_gfx_draw_text_step sample_pixconv 640 480 4 sample_get_glyph sample_atlas zero_heap
        1 0xFFFFFFFF (pen_at (-2) 10) 65).pixels (11 * 640 + 0) ≠
        fbdev_blend_pixel sample_pixconv (glyph_coverage sample_atlas sample_glyph 2 1) 0 4
          255 255 255) ∧
    ((fbdev_gfx_draw_text_step sample_pixconv 640 480 4 sample_get_glyph sample_atlas zero_heap
        1 0xFFFFFFFF (pen_at 636 10) 65).pixels (11 * 640 + 636) =
        fbdev_blend_pixel sample_pixconv (glyph_coverage sample_atlas sample_glyph 4 0) 0 4
          255 255 255 ∧
      (fbdev_gfx_draw_text_step sample_pixconv 640 480 4 sample_get_glyph sample_atlas zero_heap
        1 0xFFFFFFFF (pen_at 636 10) 65).pixels (11 * 640 + 636) ≠
        fbdev_blend_pixel sample_pixconv (glyph_coverage sample_atlas sample_glyph 0 1) 0 4
          255 255 255) ∧
    ((fbdev_gfx_draw_text_step sample_pixconv 640 480 4 sample_get_glyph sample_atlas zero_heap
        1 0xFFFFFFFF (pen_at 10 (-2)) 65).pixels (0 * 640 + 10) =
        fbdev_blend_pixel sample_pixconv (glyph_coverage sample_atlas sample_glyph 0 4) 0 4
          255 255 255 ∧
      (fbdev_gfx_draw_text_step sample_pixconv 640 480 4 sample_get_glyph sample_atlas zero_heap
        1 0xFFFFFFFF (pen_at 10 (-2)) 65).pixels (0 * 640 + 10) ≠
        fbdev_blend_pixel sample_pixconv (glyph_coverage sample_atlas sample_glyph 0 2) 0 4
          255 255 255) ∧
    (fbdev_gfx_draw_text_step sample_pixconv 640 480 4 sample_get_glyph sample_atlas zero_heap
        1 0xFFFFFFFF (pen_at 10 476) 65).pixels (477 * 640 + 10) =
      fbdev_blend_pixel sample_pixconv (glyph_coverage sample_atlas sample_glyph 0 1) 0 4
        255 255 255 := by
  refine ⟨⟨?_, ?_⟩, ⟨?_, ?_⟩, ⟨?_, ?_⟩, ?_⟩ <;> decide

/-- C20 (the code at the failing input): a 4x4 glyph at the corner of a
16-wide atlas whose byte at position `k` is `k`, scaled by 2.  The buffer has
8 columns; its byte in row 1, column 0 is atlas byte `(1 * 16 + 0) / 2 = 8`
(row 0, column 8 of the atlas, outside the glyph), not the coverage 0 of glyph
pixel (row 0, column 0); row 0 and row 2 are as claimed. -/
theorem scaled_glyph_row_reads_half_atlas_row :
    glyph_scale_buffer sample_atlas small_glyph 2 zero_heap (1 * 8 + 0) =
      sample_atlas.buffer ((1 * 16 + 0) / 2) ∧
    glyph_scale_buffer sample_atlas small_glyph 2 zero_heap (1 * 8 + 0) = 8 ∧
    glyph_coverage sample_atlas small_glyph (0 / 2) (1 / 2) = 0 ∧
    (List.range 8).map (fun j => glyph_scale_buffer sample_atlas small_glyph 2 zero_heap
      (1 * 8 + j)) = [8, 8, 9, 9, 10, 10, 11, 11] ∧
    (List.range 8).map (fun j => glyph_coverage sample_atlas small_glyph (j / 2) (1 / 2)) =
      [0, 0, 1, 1, 2, 2, 3, 3] ∧
    (List.range 8).map (fun j => glyph_scale_buffer sample_atlas small_glyph 2 zero_heap
      (0 * 8 + j)) = [0, 0, 1, 1, 2, 2, 3, 3] ∧
    (List.range 8).map (fun j => glyph_scale_buffer sample_atlas small_glyph 2 zero_heap
      (2 * 8 + j)) =
      (List.range 8).map (fun j => glyph_coverage sample_atlas small_glyph (j / 2) (2 / 2)) := by
  refine ⟨?_, ?_, ?_, ?_, ?_, ?_, ?_⟩ <;> decide

/-- C15 (the code at the failing input): the message "A\nB" with line metrics
supported.  `fbdev_render_message` makes two calls of `fbdev_render_line`,
both with length 1, but `fbdev_gfx_draw_text` is not given the length: the
first render requests glyphs for 'A', for the line break (and its replacement
'?') and for 'B', the second for 'B'. -/
theorem first_line_render_draws_whole_message :
    (fbdev_render_message sample_pixconv 640 480 4 sample_get_glyph sample_atlas zero_heap
      black_pixels true [65, 10, 66] 1 0xFFFFFFFF sample_line_pos
      text_alignment.TEXT_ALIGN_LEFT).renders =
      [{ msg_len := 1, lookups := [65, 10, 63, 66] }, { msg_len := 1, lookups := [66] }] ∧
    (fbdev_render_message sample_pixconv 640 480 4 sample_get_glyph sample_atlas zero_heap
      black_pixels true [65, 10, 66] 1 0xFFFFFFFF sample_line_pos
      text_alignment.TEXT_ALIGN_LEFT).renders ≠
      [{ msg_len := 1, lookups := [65] }, { msg_len := 1, lookups := [66] }] ∧
    (fbdev_get_message_width sample_get_glyph [65, 10, 66] 1 1).2 = [65] := by
  refine ⟨?_, ?_, ?_⟩ <;> decide

/-- C16 (the code at the failing input): the message "é", the two bytes
`0xC3 0xA9`.  `fbdev_get_message_width` decodes them and requests the glyph of
code point `0xE9` once; `fbdev_gfx_draw_text` requests one glyph per byte, for
`0xC3` and for `0xA9`. -/
theorem draw_text_looks_up_bytes :
    utf8_walk [0xC3, 0xA9] = (0xE9, 2) ∧
    (fbdev_get_message_width sample_get_glyph [0xC3, 0xA9] 2 1).2 = [0xE9] ∧
    (fbdev_gfx_draw_text sample_pixconv 640 480 4 sample_get_glyph sample_atlas zero_heap
      black_pixels [0xC3, 0xA9] 1 0xFFFFFFFF 0 0).lookups = [0xC3, 0xA9] ∧
    (fbdev_gfx_draw_text sample_pixconv 640 480 4 sample_get_glyph sample_atlas zero_heap
      black_pixels [0xC3, 0xA9] 1 0xFFFFFFFF 0 0).lookups ≠
      (fbdev_get_message_width sample_get_glyph [0xC3, 0xA9] 2 1).2 ∧
    (fbdev_gfx_draw_text sample_pixconv 640 480 4 sample_get_glyph sample_atlas zero_heap
      black_pixels [72, 105] 1 0xFFFFFFFF 0 0).lookups =
      (fbdev_get_message_width sample_get_glyph [72, 105] 2 1).2 := by
  refine ⟨?_, ?_, ?_, ?_, ?_⟩ <;> decide

/-! ## Properties of scaling a frame into a page -/

/-- A `memset` of length 0 changes nothing. -/
theorem memset_zero_empty (mem : Nat → Nat) (start : Nat) : memset_zero mem start 0 = mem := by
  funext k
  unfold memset_zero
  rw [if_neg (by omega)]

/-- With `x = 0` the side-bar loop of `fbdev_get_page` changes nothing. -/
theorem fbdev_get_page_clear_sides_none (bpp new_pitch : Nat) :
    ∀ (n dst : Nat) (mem : Nat → Nat),
      fbdev_get_page_clear_sides bpp new_pitch 0 n dst mem = mem := by
  intro n
  induction n with
  | zero => intro dst mem; rfl
  | succ n ih =>
    intro dst mem
    unfold fbdev_get_page_clear_sides
    rw [Nat.zero_mul, memset_zero_empty, memset_zero_empty, ih]

/-- C19 (the code at the failing input): a 320x240 destination of 2-byte
pixels, aspect ratio 3/2, on a surface whose bytes were all `0xAA`.  The image
is 320x213 at row 13, the leftover height 27 is odd; the bars cleared are rows
0..12 and 226..238, so row 239, which is outside the image rectangle, keeps its
old bytes whatever the frame is. -/
theorem letterbox_leaves_last_row :
    fbdev_get_page_rect 320 240 3 2 = { new_width := 320, new_height := 213, x := 0, y := 13 } ∧
    (240 - 213) % 2 = 1 ∧
    ¬ in_rect (fbdev_get_page_rect 320 240 3 2) 239 0 ∧
    (∀ image : Nat → Nat → Nat,
      fbdev_get_page_draw stale_bytes 0 320 240 2 3 2 image ((239 * 320 + 0) * 2) = 0xAA ∧
      fbdev_get_page_draw stale_bytes 0 320 240 2 3 2 image ((239 * 320 + 319) * 2 + 1) = 0xAA ∧
      fbdev_get_page_draw stale_bytes 0 320 240 2 3 2 image ((238 * 320 + 0) * 2) = 0 ∧
      fbdev_get_page_draw stale_bytes 0 320 240 2 3 2 image ((12 * 320 + 0) * 2) = 0 ∧
      fbdev_get_page_draw stale_bytes 0 320 240 2 3 2 image ((13 * 320 + 0) * 2) =
        image 0 0) := by
  have hr : fbdev_get_page_rect 320 240 3 2 =
      { new_width := 320, new_height := 213, x := 0, y := 13 } := by decide
  refine ⟨hr, by decide, by decide, ?_⟩
  intro image
  unfold fbdev_get_page_draw fbdev_get_page_clear
  rw [hr]
  dsimp only
  rw [fbdev_get_page_clear_sides_none]
  refine ⟨?_, ?_, ?_, ?_, ?_⟩ <;> rfl

/-! ## Properties of the pixel blend -/

/-- `FBDEV_COLOR_ARGB` on four bytes packs them, alpha byte on top. -/
theorem FBDEV_COLOR_ARGB_bytes (a r g b : Nat)
    (ha : a < 256) (hr : r < 256) (hg : g < 256) (hb : b < 256) :
    FBDEV_COLOR_ARGB a r g b = a * 16777216 + r * 65536 + g * 256 + b := by
  unfold FBDEV_COLOR_ARGB
  have h1 : (a <<< 24) % UINT_MOD = 2 ^ 24 * a := by
    rw [Nat.shiftLeft_eq, Nat.mul_comm]
    apply Nat.mod_eq_of_lt
    show 16777216 * a < 4294967296
    omega
  have h2 : (r <<< 16) % UINT_MOD = 2 ^ 16 * r := by
    rw [Nat.shiftLeft_eq, Nat.mul_comm]
    apply Nat.mod_eq_of_lt
    show 65536 * r < 4294967296
    omega
  have h3 : (g <<< 8) % UINT_MOD = 2 ^ 8 * g := by
    rw [Nat.shiftLeft_eq, Nat.mul_comm]
    apply Nat.mod_eq_of_lt
    show 256 * g < 4294967296
    omega
  have h4 : (b <<< 0) % UINT_MOD = b := by
    rw [Nat.shiftLeft_zero]
    apply Nat.mod_eq_of_lt
    show b < 4294967296
    omega
  rw [h1, h2, h3, h4, Nat.lor_assoc, Nat.lor_assoc,
    ← Nat.mul_add_lt_is_or (show b < 2 ^ 8 from hb) g,
    ← Nat.mul_add_lt_is_or (show 2 ^ 8 * g + b < 2 ^ 16 by
      show 256 * g + b < 65536
      omega) r,
    ← Nat.mul_add_lt_is_or (show 2 ^ 16 * r + (2 ^ 8 * g + b) < 2 ^ 24 by
      show 65536 * r + (256 * g + b) < 16777216
      omega) a]
  show 16777216 * a + (65536 * r + (256 * g + b)) = _
  omega

/-- The four channel macros as quotients and remainders. -/
theorem FBDEV_COLOR_channels (col : Nat) :
    FBDEV_COLOR_A col = col / 16777216 % 256 ∧ FBDEV_COLOR_R col = col / 65536 % 256 ∧
    FBDEV_COLOR_G col = col / 256 % 256 ∧ FBDEV_COLOR_B col = col % 256 := by
  unfold FBDEV_COLOR_A FBDEV_COLOR_R FBDEV_COLOR_G FBDEV_COLOR_B
  refine ⟨?_, ?_, ?_, ?_⟩
  · rw [Nat.shiftRight_eq_div_pow]
    exact Nat.and_pow_two_sub_one_eq_mod _ 8
  · rw [Nat.shiftRight_eq_div_pow]
    exact Nat.and_pow_two_sub_one_eq_mod _ 8
  · rw [Nat.shiftRight_eq_div_pow]
    exact Nat.and_pow_two_sub_one_eq_mod _ 8
  · rw [Nat.shiftRight_eq_div_pow, Nat.pow_zero, Nat.div_one]
    exact Nat.and_pow_two_sub_one_eq_mod _ 8

/-- `FBDEV_BLEND_CHANNEL` on a weight of at most 255 and two bytes: the weighted
sum divided by 256, which lies between `255 * min / 256` and `255 * max / 256`. -/
theorem FBDEV_BLEND_CHANNEL_bytes (blend c1 c2 : Nat)
    (hw : blend ≤ 255) (h1 : c1 < 256) (h2 : c2 < 256) :
    FBDEV_BLEND_CHANNEL blend c1 c2 = ((255 - blend) * c1 + blend * c2) / 256 ∧
    255 * min c1 c2 ≤ (255 - blend) * c1 + blend * c2 ∧
    (255 - blend) * c1 + blend * c2 ≤ 255 * max c1 c2 := by
  have hlo : 255 * min c1 c2 ≤ (255 - blend) * c1 + blend * c2 := by
    have a1 : (255 - blend) * min c1 c2 ≤ (255 - blend) * c1 :=
      Nat.mul_le_mul_left _ (min_le_left _ _)
    have a2 : blend * min c1 c2 ≤ blend * c2 := Nat.mul_le_mul_left _ (min_le_right _ _)
    have a3 : 255 * min c1 c2 = (255 - blend) * min c1 c2 + blend * min c1 c2 := by
      rw [← Nat.add_mul]
      congr 1
      omega
    omega
  have hhi : (255 - blend) * c1 + blend * c2 ≤ 255 * max c1 c2 := by
    have a1 : (255 - blend) * c1 ≤ (255 - blend) * max c1 c2 :=
      Nat.mul_le_mul_left _ (le_max_left _ _)
    have a2 : blend * c2 ≤ blend * max c1 c2 := Nat.mul_le_mul_left _ (le_max_right _ _)
    have a3 : 255 * max c1 c2 = (255 - blend) * max c1 c2 + blend * max c1 c2 := by
      rw [← Nat.add_mul]
      congr 1
      omega
    omega
  refine ⟨?_, hlo, hhi⟩
  unfold FBDEV_BLEND_CHANNEL
  have hc : (255 + UINT_MOD - blend % UINT_MOD) % UINT_MOD = 255 - blend := by
    show (255 + 4294967296 - blend % 4294967296) % 4294967296 = 255 - blend
    omega
  have hmax : max c1 c2 ≤ 255 := by
    rcases max_choice c1 c2 with h | h <;> rw [h] <;> omega
  rw [hc, Nat.mod_eq_of_lt (by
    show (255 - blend) * c1 + blend * c2 < 4294967296
    have : 255 * max c1 c2 ≤ 255 * 255 := Nat.mul_le_mul_left _ hmax
    omega), Nat.shiftRight_eq_div_pow]

/-- Four bytes packed into a word are recovered by quotient and remainder. -/
theorem packed_bytes (a r g b : Nat)
    (ha : a < 256) (hr : r < 256) (hg : g < 256) (hb : b < 256) :
    (a * 16777216 + r * 65536 + g * 256 + b) / 16777216 % 256 = a ∧
    (a * 16777216 + r * 65536 + g * 256 + b) / 65536 % 256 = r ∧
    (a * 16777216 + r * 65536 + g * 256 + b) / 256 % 256 = g ∧
    (a * 16777216 + r * 65536 + g * 256 + b) % 256 = b := by
  refine ⟨?_, ?_, ?_, ?_⟩ <;> omega

/-- A weighted sum between `255 * m` and `255 * M` divided by 256 lies between
`m - 1` and `M`, and is a byte. -/
theorem blend_quotient_bounds (x m M : Nat) (hlo : 255 * m ≤ x) (hhi : x ≤ 255 * M)
    (hM : M ≤ 255) : m - 1 ≤ x / 256 ∧ x / 256 ≤ M ∧ x / 256 < 256 := by
  refine ⟨?_, ?_, ?_⟩ <;> omega

/-- The weighted sum of a byte with itself divided by 256 is one less. -/
theorem blend_quotient_same (x c : Nat) (hlo : 255 * c ≤ x) (hhi : x ≤ 255 * c)
    (hc : c < 256) : x / 256 = c - 1 := by
  omega

/-- C21 (as amended): for a 4-byte pixel, 8-bit `r`, `g`, `b` and every blend
weight `0 < w < 255`, `fbdev_blend_pixel` keeps the alpha byte of the
destination and sets each colour channel to `((255 - w) * d + w * c) / 256`, the
mix of the destination channel `d` and the requested channel `c` with weights
that add up to 255, divided by 256: it is at most `max d c` and at least
`min d c - 1`.  Blending a colour onto a pixel that already has that colour
lowers every non-zero channel by one. -/
theorem fbdev_blend_pixel_mix (cv : pixconv) (w dst r g b : Nat)
    (hw0 : 0 < w) (hw : w < 255) (hr : r < 256) (hg : g < 256) (hb : b < 256) :
    FBDEV_COLOR_A (fbdev_blend_pixel cv w dst 4 r g b) = FBDEV_COLOR_A dst ∧
    (FBDEV_COLOR_R (fbdev_blend_pixel cv w dst 4 r g b) =
        ((255 - w) * FBDEV_COLOR_R dst + w * r) / 256 ∧
      min (FBDEV_COLOR_R dst) r - 1 ≤ FBDEV_COLOR_R (fbdev_blend_pixel cv w dst 4 r g b) ∧
      FBDEV_COLOR_R (fbdev_blend_pixel cv w dst 4 r g b) ≤ max (FBDEV_COLOR_R dst) r ∧
      (FBDEV_COLOR_R dst = r → FBDEV_COLOR_R (fbdev_blend_pixel cv w dst 4 r g b) = r - 1)) ∧
    (FBDEV_COLOR_G (fbdev_blend_pixel cv w dst 4 r g b) =
        ((255 - w) * FBDEV_COLOR_G dst + w * g) / 256 ∧
      min (FBDEV_COLOR_G dst) g - 1 ≤ FBDEV_COLOR_G (fbdev_blend_pixel cv w dst 4 r g b) ∧
      FBDEV_COLOR_G (fbdev_blend_pixel cv w dst 4 r g b) ≤ max (FBDEV_COLOR_G dst) g ∧
      (FBDEV_COLOR_G dst = g → FBDEV_COLOR_G (fbdev_blend_pixel cv w dst 4 r g b) = g - 1)) ∧
    (FBDEV_COLOR_B (fbdev_blend_pixel cv w dst 4 r g b) =
        ((255 - w) * FBDEV_COLOR_B dst + w * b) / 256 ∧
      min (FBDEV_COLOR_B dst) b - 1 ≤ FBDEV_COLOR_B (fbdev_blend_pixel cv w dst 4 r g b) ∧
      FBDEV_COLOR_B (fbdev_blend_pixel cv w dst 4 r g b) ≤ max (FBDEV_COLOR_B dst) b ∧
      (FBDEV_COLOR_B dst = b → FBDEV_COLOR_B (fbdev_blend_pixel cv w dst 4 r g b) = b - 1)) := by
  obtain ⟨cA, cR, cG, cB⟩ := FBDEV_COLOR_channels dst
  have hA : FBDEV_COLOR_A dst < 256 := by rw [cA]; exact Nat.mod_lt _ (by decide)
  have hR : FBDEV_COLOR_R dst < 256 := by rw [cR]; exact Nat.mod_lt _ (by decide)
  have hG : FBDEV_COLOR_G dst < 256 := by rw [cG]; exact Nat.mod_lt _ (by decide)
  have hB : FBDEV_COLOR_B dst < 256 := by rw [cB]; exact Nat.mod_lt _ (by decide)
  obtain ⟨eR, loR, hiR⟩ := FBDEV_BLEND_CHANNEL_bytes w (FBDEV_COLOR_R dst) r (by omega) hR hr
  obtain ⟨eG, loG, hiG⟩ := FBDEV_BLEND_CHANNEL_bytes w (FBDEV_COLOR_G dst) g (by omega) hG hg
  obtain ⟨eB, loB, hiB⟩ := FBDEV_BLEND_CHANNEL_bytes w (FBDEV_COLOR_B dst) b (by omega) hB hb
  have mR : max (FBDEV_COLOR_R dst) r ≤ 255 := by
    rcases max_choice (FBDEV_COLOR_R dst) r with h | h <;> rw [h] <;> omega
  have mG : max (FBDEV_COLOR_G dst) g ≤ 255 := by
    rcases max_choice (FBDEV_COLOR_G dst) g with h | h <;> rw [h] <;> omega
  have mB : max (FBDEV_COLOR_B dst) b ≤ 255 := by
    rcases max_choice (FBDEV_COLOR_B dst) b with h | h <;> rw [h] <;> omega
  have hp : fbdev_blend_pixel cv w dst 4 r g b =
      FBDEV_COLOR_A dst * 16777216 +
        ((255 - w) * FBDEV_COLOR_R dst + w * r) / 256 * 65536 +
        ((255 - w) * FBDEV_COLOR_G dst + w * g) / 256 * 256 +
        ((255 - w) * FBDEV_COLOR_B dst + w * b) / 256 := by
    unfold fbdev_blend_pixel
    rw [if_neg (by omega), if_neg (by decide), if_pos rfl, if_neg (by omega)]
    unfold FBDEV_BLEND_ARGB8888
    rw [eR, eG, eB]
    exact FBDEV_COLOR_ARGB_bytes _ _ _ _ hA
      (blend_quotient_bounds _ _ _ loR hiR mR).2.2 (blend_quotient_bounds _ _ _ loG hiG mG).2.2
      (blend_quotient_bounds _ _ _ loB hiB mB).2.2
  obtain ⟨pA, pR, pG, pB⟩ := FBDEV_COLOR_channels (fbdev_blend_pixel cv w dst 4 r g b)
  obtain ⟨bR1, bR2, bR3⟩ := blend_quotient_bounds _ _ _ loR hiR mR
  obtain ⟨bG1, bG2, bG3⟩ := blend_quotient_bounds _ _ _ loG hiG mG
  obtain ⟨bB1, bB2, bB3⟩ := blend_quotient_bounds _ _ _ loB hiB mB
  obtain ⟨qA, qR, qG, qB⟩ := packed_bytes _ _ _ _ hA bR3 bG3 bB3
  rw [← hp] at qA qR qG qB
  rw [← pA] at qA
  rw [← pR] at qR
  rw [← pG] at qG
  rw [← pB] at qB
  refine ⟨qA, ⟨qR, ?_, ?_, ?_⟩, ⟨qG, ?_, ?_, ?_⟩, ⟨qB, ?_, ?_, ?_⟩⟩
  · rw [qR]; exact bR1
  · rw [qR]; exact bR2
  · intro h
    rw [h, min_self] at loR
    rw [h, max_self] at hiR
    rw [qR, h]
    exact blend_quotient_same _ _ loR hiR (by omega)
  · rw [qG]; exact bG1
  · rw [qG]; exact bG2
  · intro h
    rw [h, min_self] at loG
    rw [h, max_self] at hiG
    rw [qG, h]
    exact blend_quotient_same _ _ loG hiG (by omega)
  · rw [qB]; exact bB1
  · rw [qB]; exact bB2
  · intro h
    rw [h, min_self] at loB
    rw [h, max_self] at hiB
    rw [qB, h]
    exact blend_quotient_same _ _ loB hiB (by omega)

/-- C21 (counterexample): white (255, 255, 255) blended with weight 128 onto
the white pixel `0xFFFFFFFF` gives `0xFFFEFEFE`: every colour channel drops to
254, below both the destination and the requested channel, and the pixel
changes. -/
theorem fbdev_blend_pixel_same_colour_darkens :
    fbdev_blend_pixel sample_pixconv 128 0xFFFFFFFF 4 255 255 255 = 0xFFFEFEFE ∧
    FBDEV_COLOR_R 0xFFFFFFFF = 255 ∧
    FBDEV_COLOR_R (fbdev_blend_pixel sample_pixconv 128 0xFFFFFFFF 4 255 255 255) = 254 ∧
    ¬ (min (FBDEV_COLOR_R 0xFFFFFFFF) 255 ≤
        FBDEV_COLOR_R (fbdev_blend_pixel sample_pixconv 128 0xFFFFFFFF 4 255 255 255)) ∧
    fbdev_blend_pixel sample_pixconv 128 0xFFFFFFFF 4 255 255 255 ≠ 0xFFFFFFFF := by
  refine ⟨?_, ?_, ?_, ?_, ?_⟩ <;> decide

/-- C21 (witness): orange (255, 128, 0) blended with weight 64 onto the
half-transparent grey pixel `0x80404040`. -/
theorem fbdev_blend_pixel_mix_witness :
    (0 < 64 ∧ 64 < 255 ∧ 255 < 256 ∧ 128 < 256 ∧ 0 < 256) ∧
    FBDEV_COLOR_A (fbdev_blend_pixel sample_pixconv 64 0x80404040 4 255 128 0) =
      FBDEV_COLOR_A 0x80404040 ∧
    FBDEV_COLOR_R (fbdev_blend_pixel sample_pixconv 64 0x80404040 4 255 128 0) =
      ((255 - 64) * FBDEV_COLOR_R 0x80404040 + 64 * 255) / 256 ∧
    fbdev_blend_pixel sample_pixconv 64 0x80404040 4 255 128 0 = 0x806F4F2F :=
  ⟨⟨by decide, by decide, by decide, by decide, by decide⟩,
   (fbdev_blend_pixel_mix sample_pixconv 64 0x80404040 255 128 0
      (by decide) (by decide) (by decide) (by decide) (by decide)).1,
   (fbdev_blend_pixel_mix sample_pixconv 64 0x80404040 255 128 0
      (by decide) (by decide) (by decide) (by decide) (by decide)).2.1.1,
   by decide⟩

end Fbdev
